import Mathlib

/-!
Verification of the configuration-compilation layer of a TiKV-style
key-value store (`src/config.rs`).  The Rust source is shallowly embedded:
pure functions become Lean functions, the mutating `validate` pass becomes
explicit state passing returning the updated tree together with an
`Except`-style result, and the native RocksDB option objects become records
whose fields track exactly which setters have been invoked and with which
arguments.  External collaborators (path canonicalization, on-disk checks,
sub-validators of foreign subtrees) are gathered in an `Env` record and are
modelled from the specification, since their code is not part of the
source under verification.
-/

/-! ## Unit constants (from util::config) -/

def KB : Nat := 1024

def MB : Nat := 1024 * KB

def GB : Nat := 1024 * MB

/-- usize::MAX on a 64-bit target. -/
def USIZE_MAX : Nat := 2 ^ 64 - 1

/-- Reinterpretation of a u64 value as an i64 (Rust `as i64` cast). -/
def i64_of_u64 (n : Nat) : Int :=
  if n < 2 ^ 63 then (n : Int) else (n : Int) - 2 ^ 64

/-- Reinterpretation of (the low 32 bits of) a u64 value as an i32
(Rust `as i32` cast). -/
def i32_of_u64 (n : Nat) : Int :=
  if n % 2 ^ 32 < 2 ^ 31 then ((n % 2 ^ 32 : Nat) : Int)
  else ((n % 2 ^ 32 : Nat) : Int) - 2 ^ 32

/-! ## Column-family name constants (from the storage module) -/

def CF_DEFAULT : String := "default"

def CF_LOCK : String := "lock"

def CF_WRITE : String := "write"

def CF_RAFT : String := "raft"

/-- Name of the main engine subdirectory under the data dir
(`DEFAULT_ROCKSDB_SUB_DIR`); the spec fixes it to `db`. -/
def DEFAULT_ROCKSDB_SUB_DIR : String := "db"

/-! ## Memory sizing advisor (config.rs lines 33-54) -/

def LOCKCF_MIN_MEM : Nat := 256 * MB

def LOCKCF_MAX_MEM : Nat := GB

def RAFT_MIN_MEM : Nat := 256 * MB

def RAFT_MAX_MEM : Nat := 2 * GB

/-- Embedding of `memory_mb_for_cf(is_raft_db, cf)`.  The host-memory read
(`sys_info::mem_info().total`, in KB) is injected as the parameter
`totalKB`, as the spec's design notes direct.  The `f64` multiplication by
the ratio (0.02 / 0.25 / 0.15) followed by the truncating `as usize` cast
is modelled as exact rational arithmetic with truncation
(`total_mem * percent / 100`).  The `unreachable!()` arm for any other
(engine, CF) pair is modelled as `none`. -/
def memory_mb_for_cf (totalKB : Nat) (is_raft_db : Bool) (cf : String) : Option Nat :=
  let total_mem := totalKB * KB
  let radio_lo_hi : Option (Nat × Nat × Nat) :=
    match is_raft_db, cf with
    | true, "default" => some (2, RAFT_MIN_MEM, RAFT_MAX_MEM)
    | false, "default" => some (25, 0, USIZE_MAX)
    | false, "lock" => some (2, LOCKCF_MIN_MEM, LOCKCF_MAX_MEM)
    | false, "write" => some (15, 0, USIZE_MAX)
    | _, _ => none
  match radio_lo_hi with
  | none => none
  | some (radio, lo, hi) =>
    let size := total_mem * radio / 100
    let size := if size < lo then lo else if size > hi then hi else size
    some (size / MB)

/-! ## Leaf unit types (external collaborators, used as plain wrappers) -/

/-- ReadableSize: an exact count of bytes. -/
structure ReadableSize where
  bytes : Nat
deriving DecidableEq

def ReadableSize.kb (n : Nat) : ReadableSize := ⟨n * KB⟩

def ReadableSize.mb (n : Nat) : ReadableSize := ⟨n * MB⟩

def ReadableSize.gb (n : Nat) : ReadableSize := ⟨n * GB⟩

def ReadableSize.as_mb (s : ReadableSize) : Nat := s.bytes / MB

/-- ReadableDuration, represented by its whole number of seconds (every
occurrence in the source is a whole number of seconds). -/
structure ReadableDuration where
  secs : Nat
deriving DecidableEq

def ReadableDuration.ofSecs (n : Nat) : ReadableDuration := ⟨n⟩

def ReadableDuration.minutes (n : Nat) : ReadableDuration := ⟨60 * n⟩

def ReadableDuration.hours (n : Nat) : ReadableDuration := ⟨3600 * n⟩

def ReadableDuration.as_secs (d : ReadableDuration) : Nat := d.secs

/-! ## Engine enums (rocksdb crate) -/

inductive DBCompressionType where
  | no
  | snappy
  | zlib
  | bzip2
  | lz4
  | lz4hc
  | zstd
deriving DecidableEq

/-- The 7-element per-level compression array (`[DBCompressionType; 7]`). -/
structure Compression7 where
  l0 : DBCompressionType
  l1 : DBCompressionType
  l2 : DBCompressionType
  l3 : DBCompressionType
  l4 : DBCompressionType
  l5 : DBCompressionType
  l6 : DBCompressionType
deriving DecidableEq

inductive DBRecoveryMode where
  | TolerateCorruptedTailRecords
  | AbsoluteConsistency
  | PointInTime
  | SkipAnyCorruptedRecords
deriving DecidableEq

/-- Compaction priority; `MinOverlapping` embeds the source's
min-overlapping-ratio variant. -/
inductive CompactionPriority where
  | ByCompensatedSize
  | OldestLargestSeqFirst
  | OldestSmallestSeqFirst
  | MinOverlapping
deriving DecidableEq

inductive LogLevelFilter where
  | Info
  | Trace
  | Debug
  | Warn
  | Error
  | Off
deriving DecidableEq

/-! ## The shared column-family config shape (`cf_config!` macro) -/

/-- One structure embeds the five macro-generated, structurally identical
CF config structs (`DefaultCfConfig`, `WriteCfConfig`, `LockCfConfig`,
`RaftCfConfig`, `RaftDefaultCfConfig`); they differ only in their defaults
and `build_opt` extras. -/
structure CfConfig where
  block_size : ReadableSize
  block_cache_size : ReadableSize
  cache_index_and_filter_blocks : Bool
  use_bloom_filter : Bool
  whole_key_filtering : Bool
  bloom_filter_bits_per_key : Int
  block_based_bloom_filter : Bool
  compression_per_level : Compression7
  write_buffer_size : ReadableSize
  max_write_buffer_number : Int
  min_write_buffer_number_to_merge : Int
  max_bytes_for_level_base : ReadableSize
  target_file_size_base : ReadableSize
  level0_file_num_compaction_trigger : Int
  level0_slowdown_writes_trigger : Int
  level0_stop_writes_trigger : Int
  max_compaction_bytes : ReadableSize
  compaction_pri : CompactionPriority
deriving DecidableEq

/-! ## Native option objects, modelled as setter-call records -/

/-- BlockBasedOptions: each field is `none` until the corresponding setter
is called. -/
structure BlockBasedOptions where
  block_size : Option Nat := none
  lru_cache : Option Nat := none
  cache_index_and_filter_blocks : Option Bool := none
  bloom_filter : Option (Int × Bool) := none
  whole_key_filtering : Option Bool := none
deriving DecidableEq

def BlockBasedOptions.new : BlockBasedOptions := {}

def BlockBasedOptions.set_block_size (o : BlockBasedOptions) (n : Nat) :
    BlockBasedOptions := { o with block_size := some n }

def BlockBasedOptions.set_lru_cache (o : BlockBasedOptions) (n : Nat) :
    BlockBasedOptions := { o with lru_cache := some n }

def BlockBasedOptions.set_cache_index_and_filter_blocks (o : BlockBasedOptions)
    (b : Bool) : BlockBasedOptions := { o with cache_index_and_filter_blocks := some b }

def BlockBasedOptions.set_bloom_filter (o : BlockBasedOptions) (bits : Int)
    (block_based : Bool) : BlockBasedOptions :=
  { o with bloom_filter := some (bits, block_based) }

def BlockBasedOptions.set_whole_key_filtering (o : BlockBasedOptions) (b : Bool) :
    BlockBasedOptions := { o with whole_key_filtering := some b }

/-- Key-slicing transforms registered by the CF builders. -/
inductive SliceTransform where
  | fixedSfx (n : Nat)
  | fixedPfx (n : Nat)
  | noop
deriving DecidableEq

/-- Table-properties collector factories registered by the CF builders. -/
inductive PropsCollector where
  | size
  | mvcc
deriving DecidableEq

/-- ColumnFamilyOptions as a record of performed setter calls. -/
structure ColumnFamilyOptions where
  block_based_table_factory : Option BlockBasedOptions := none
  compression_levels : Option Compression7 := none
  write_buffer_size : Option Nat := none
  max_write_buffer_number : Option Int := none
  min_write_buffer_number_to_merge : Option Int := none
  max_bytes_for_level_base : Option Nat := none
  target_file_size_base : Option Nat := none
  level_zero_file_num_compaction_trigger : Option Int := none
  level_zero_slowdown_writes_trigger : Option Int := none
  level_zero_stop_writes_trigger : Option Int := none
  max_compaction_bytes : Option Nat := none
  compaction_pri_opt : Option CompactionPriority := none
  prefix_extractor_reg : Option (String × SliceTransform) := none
  insert_hint_extractor_reg : Option (String × SliceTransform) := none
  memtable_prefix_bloom_frac : Option Rat := none
  collectors : List (String × PropsCollector) := []
deriving DecidableEq

def ColumnFamilyOptions.new : ColumnFamilyOptions := {}

def ColumnFamilyOptions.set_block_based_table_factory (o : ColumnFamilyOptions)
    (b : BlockBasedOptions) : ColumnFamilyOptions :=
  { o with block_based_table_factory := some b }

def ColumnFamilyOptions.set_compression_per_level (o : ColumnFamilyOptions)
    (c : Compression7) : ColumnFamilyOptions := { o with compression_levels := some c }

def ColumnFamilyOptions.set_write_buffer_size (o : ColumnFamilyOptions) (n : Nat) :
    ColumnFamilyOptions := { o with write_buffer_size := some n }

def ColumnFamilyOptions.set_max_write_buffer_number (o : ColumnFamilyOptions)
    (n : Int) : ColumnFamilyOptions := { o with max_write_buffer_number := some n }

def ColumnFamilyOptions.set_min_write_buffer_number_to_merge (o : ColumnFamilyOptions)
    (n : Int) : ColumnFamilyOptions :=
  { o with min_write_buffer_number_to_merge := some n }

def ColumnFamilyOptions.set_max_bytes_for_level_base (o : ColumnFamilyOptions)
    (n : Nat) : ColumnFamilyOptions := { o with max_bytes_for_level_base := some n }

def ColumnFamilyOptions.set_target_file_size_base (o : ColumnFamilyOptions)
    (n : Nat) : ColumnFamilyOptions := { o with target_file_size_base := some n }

def ColumnFamilyOptions.set_level_zero_file_num_compaction_trigger
    (o : ColumnFamilyOptions) (n : Int) : ColumnFamilyOptions :=
  { o with level_zero_file_num_compaction_trigger := some n }

def ColumnFamilyOptions.set_level_zero_slowdown_writes_trigger
    (o : ColumnFamilyOptions) (n : Int) : ColumnFamilyOptions :=
  { o with level_zero_slowdown_writes_trigger := some n }

def ColumnFamilyOptions.set_level_zero_stop_writes_trigger
    (o : ColumnFamilyOptions) (n : Int) : ColumnFamilyOptions :=
  { o with level_zero_stop_writes_trigger := some n }

def ColumnFamilyOptions.set_max_compaction_bytes (o : ColumnFamilyOptions)
    (n : Nat) : ColumnFamilyOptions := { o with max_compaction_bytes := some n }

def ColumnFamilyOptions.set_compaction_priority (o : ColumnFamilyOptions)
    (p : CompactionPriority) : ColumnFamilyOptions :=
  { o with compaction_pri_opt := some p }

/-- Modelled from the spec: `rust-rocksdb`'s `set_prefix_extractor` returns
a `Result`; per the spec the builders have "No error conditions", so the
registration always succeeds.  The `Except` return mirrors the binding's
`Result` type, on which the source calls `.unwrap()`. -/
def ColumnFamilyOptions.set_prefix_extractor (o : ColumnFamilyOptions)
    (name : String) (t : SliceTransform) : Except String ColumnFamilyOptions :=
  Except.ok { o with prefix_extractor_reg := some (name, t) }

/-- Modelled from the spec: registration of a memtable insert-hint prefix
extractor (used by the consensus-log default CF); always succeeds. -/
def ColumnFamilyOptions.set_memtable_insert_hint_prefix_extractor
    (o : ColumnFamilyOptions) (name : String) (t : SliceTransform) :
    Except String ColumnFamilyOptions :=
  Except.ok { o with insert_hint_extractor_reg := some (name, t) }

/-- Embeds `set_memtable_prefix_bloom_size_ratio` (the argument is always
the literal 0.1 in the source, modelled exactly as the rational 1/10). -/
def ColumnFamilyOptions.set_memtable_prefix_bloom_frac (o : ColumnFamilyOptions)
    (q : Rat) : ColumnFamilyOptions := { o with memtable_prefix_bloom_frac := some q }

def ColumnFamilyOptions.add_table_properties_collector_factory
    (o : ColumnFamilyOptions) (name : String) (f : PropsCollector) :
    ColumnFamilyOptions := { o with collectors := o.collectors ++ [(name, f)] }

/-- Embedding of the `build_cf_opt!` macro (config.rs lines 86-112), the
common path of every CF builder. -/
def build_cf_opt (opt : CfConfig) : ColumnFamilyOptions :=
  let block_base_opts := BlockBasedOptions.new
  let block_base_opts := block_base_opts.set_block_size opt.block_size.bytes
  let block_base_opts := block_base_opts.set_lru_cache opt.block_cache_size.bytes
  let block_base_opts :=
    block_base_opts.set_cache_index_and_filter_blocks opt.cache_index_and_filter_blocks
  let block_base_opts :=
    if opt.use_bloom_filter then
      (block_base_opts.set_bloom_filter opt.bloom_filter_bits_per_key
        opt.block_based_bloom_filter).set_whole_key_filtering opt.whole_key_filtering
    else block_base_opts
  let cf_opts := ColumnFamilyOptions.new
  let cf_opts := cf_opts.set_block_based_table_factory block_base_opts
  let cf_opts := cf_opts.set_compression_per_level opt.compression_per_level
  let cf_opts := cf_opts.set_write_buffer_size opt.write_buffer_size.bytes
  let cf_opts := cf_opts.set_max_write_buffer_number opt.max_write_buffer_number
  let cf_opts :=
    cf_opts.set_min_write_buffer_number_to_merge opt.min_write_buffer_number_to_merge
  let cf_opts := cf_opts.set_max_bytes_for_level_base opt.max_bytes_for_level_base.bytes
  let cf_opts := cf_opts.set_target_file_size_base opt.target_file_size_base.bytes
  let cf_opts :=
    cf_opts.set_level_zero_file_num_compaction_trigger opt.level0_file_num_compaction_trigger
  let cf_opts :=
    cf_opts.set_level_zero_slowdown_writes_trigger opt.level0_slowdown_writes_trigger
  let cf_opts :=
    cf_opts.set_level_zero_stop_writes_trigger opt.level0_stop_writes_trigger
  let cf_opts := cf_opts.set_max_compaction_bytes opt.max_compaction_bytes.bytes
  let cf_opts := cf_opts.set_compaction_priority opt.compaction_pri
  cf_opts

/-- Modelled from the spec: `region_raft_prefix_len()` is a
collaborator-supplied constant (the consensus-log key-region-prefix
length); its concrete value is not used by any claim. -/
def region_raft_prefix_len : Nat := 11

/-- `DefaultCfConfig::build_opt` (main engine default CF): only a
size-properties collector is attached; no fallible call occurs. -/
def DefaultCfConfig.build_opt (c : CfConfig) : ColumnFamilyOptions :=
  let cf_opts := build_cf_opt c
  cf_opts.add_table_properties_collector_factory
    "tikv.size-properties-collector" PropsCollector.size

/-- `WriteCfConfig::build_opt`; `none` models the `.unwrap()` panic on a
failed extractor registration. -/
def WriteCfConfig.build_opt (c : CfConfig) : Option ColumnFamilyOptions :=
  let cf_opts := build_cf_opt c
  match cf_opts.set_prefix_extractor "FixedSuffixSliceTransform"
      (SliceTransform.fixedSfx 8) with
  | Except.error _ => none
  | Except.ok cf_opts =>
    let cf_opts := cf_opts.set_memtable_prefix_bloom_frac (1 / 10 : Rat)
    let cf_opts := cf_opts.add_table_properties_collector_factory
      "tikv.mvcc-properties-collector" PropsCollector.mvcc
    let cf_opts := cf_opts.add_table_properties_collector_factory
      "tikv.size-properties-collector" PropsCollector.size
    some cf_opts

/-- `LockCfConfig::build_opt`. -/
def LockCfConfig.build_opt (c : CfConfig) : Option ColumnFamilyOptions :=
  let cf_opts := build_cf_opt c
  match cf_opts.set_prefix_extractor "NoopSliceTransform" SliceTransform.noop with
  | Except.error _ => none
  | Except.ok cf_opts =>
    some (cf_opts.set_memtable_prefix_bloom_frac (1 / 10 : Rat))

/-- `RaftCfConfig::build_opt` (the raft CF inside the main engine). -/
def RaftCfConfig.build_opt (c : CfConfig) : Option ColumnFamilyOptions :=
  let cf_opts := build_cf_opt c
  match cf_opts.set_prefix_extractor "NoopSliceTransform" SliceTransform.noop with
  | Except.error _ => none
  | Except.ok cf_opts =>
    some (cf_opts.set_memtable_prefix_bloom_frac (1 / 10 : Rat))

/-- `RaftDefaultCfConfig::build_opt` (consensus-log engine default CF). -/
def RaftDefaultCfConfig.build_opt (c : CfConfig) : Option ColumnFamilyOptions :=
  let cf_opts := build_cf_opt c
  match cf_opts.set_memtable_insert_hint_prefix_extractor "RaftPrefixSliceTransform"
      (SliceTransform.fixedPfx region_raft_prefix_len) with
  | Except.error _ => none
  | Except.ok cf_opts => some cf_opts

/-! ## CF config defaults.  The host-memory-dependent cache sizes take the
injected total (KB) as a parameter `m`. -/

/-- Per-level compression [no, no, lz4, lz4, lz4, zstd, zstd]. -/
def compressionMixed : Compression7 :=
  ⟨DBCompressionType.no, DBCompressionType.no, DBCompressionType.lz4,
   DBCompressionType.lz4, DBCompressionType.lz4, DBCompressionType.zstd,
   DBCompressionType.zstd⟩

/-- Per-level compression [no; 7]. -/
def compressionNone7 : Compression7 :=
  ⟨DBCompressionType.no, DBCompressionType.no, DBCompressionType.no,
   DBCompressionType.no, DBCompressionType.no, DBCompressionType.no,
   DBCompressionType.no⟩

/-- `DefaultCfConfig::default()`.  The `getD 0` extracts from the advisor's
result; the `(false, CF_DEFAULT)` pair is one of its four defined pairs. -/
def DefaultCfConfig.default (m : Nat) : CfConfig where
  block_size := ReadableSize.kb 64
  block_cache_size := ReadableSize.mb ((memory_mb_for_cf m false CF_DEFAULT).getD 0)
  cache_index_and_filter_blocks := true
  use_bloom_filter := true
  whole_key_filtering := true
  bloom_filter_bits_per_key := 10
  block_based_bloom_filter := false
  compression_per_level := compressionMixed
  write_buffer_size := ReadableSize.mb 128
  max_write_buffer_number := 5
  min_write_buffer_number_to_merge := 1
  max_bytes_for_level_base := ReadableSize.mb 512
  target_file_size_base := ReadableSize.mb 32
  level0_file_num_compaction_trigger := 4
  level0_slowdown_writes_trigger := 20
  level0_stop_writes_trigger := 36
  max_compaction_bytes := ReadableSize.gb 2
  compaction_pri := CompactionPriority.MinOverlapping

/-- `WriteCfConfig::default()`. -/
def WriteCfConfig.default (m : Nat) : CfConfig where
  block_size := ReadableSize.kb 64
  block_cache_size := ReadableSize.mb ((memory_mb_for_cf m false CF_WRITE).getD 0)
  cache_index_and_filter_blocks := true
  use_bloom_filter := true
  whole_key_filtering := false
  bloom_filter_bits_per_key := 10
  block_based_bloom_filter := false
  compression_per_level := compressionMixed
  write_buffer_size := ReadableSize.mb 128
  max_write_buffer_number := 5
  min_write_buffer_number_to_merge := 1
  max_bytes_for_level_base := ReadableSize.mb 512
  target_file_size_base := ReadableSize.mb 32
  level0_file_num_compaction_trigger := 4
  level0_slowdown_writes_trigger := 20
  level0_stop_writes_trigger := 36
  max_compaction_bytes := ReadableSize.gb 2
  compaction_pri := CompactionPriority.MinOverlapping

/-- `LockCfConfig::default()`. -/
def LockCfConfig.default (m : Nat) : CfConfig where
  block_size := ReadableSize.kb 16
  block_cache_size := ReadableSize.mb ((memory_mb_for_cf m false CF_LOCK).getD 0)
  cache_index_and_filter_blocks := true
  use_bloom_filter := true
  whole_key_filtering := true
  bloom_filter_bits_per_key := 10
  block_based_bloom_filter := false
  compression_per_level := compressionNone7
  write_buffer_size := ReadableSize.mb 128
  max_write_buffer_number := 5
  min_write_buffer_number_to_merge := 1
  max_bytes_for_level_base := ReadableSize.mb 128
  target_file_size_base := ReadableSize.mb 32
  level0_file_num_compaction_trigger := 1
  level0_slowdown_writes_trigger := 20
  level0_stop_writes_trigger := 36
  max_compaction_bytes := ReadableSize.gb 2
  compaction_pri := CompactionPriority.ByCompensatedSize

/-- `RaftCfConfig::default()` (fixed 128MB cache, no advisor call). -/
def RaftCfConfig.default : CfConfig where
  block_size := ReadableSize.kb 16
  block_cache_size := ReadableSize.mb 128
  cache_index_and_filter_blocks := true
  use_bloom_filter := true
  whole_key_filtering := true
  bloom_filter_bits_per_key := 10
  block_based_bloom_filter := false
  compression_per_level := compressionNone7
  write_buffer_size := ReadableSize.mb 128
  max_write_buffer_number := 5
  min_write_buffer_number_to_merge := 1
  max_bytes_for_level_base := ReadableSize.mb 128
  target_file_size_base := ReadableSize.mb 32
  level0_file_num_compaction_trigger := 1
  level0_slowdown_writes_trigger := 20
  level0_stop_writes_trigger := 36
  max_compaction_bytes := ReadableSize.gb 2
  compaction_pri := CompactionPriority.ByCompensatedSize

/-- `RaftDefaultCfConfig::default()`. -/
def RaftDefaultCfConfig.default (m : Nat) : CfConfig where
  block_size := ReadableSize.kb 64
  block_cache_size := ReadableSize.mb ((memory_mb_for_cf m true CF_DEFAULT).getD 0)
  cache_index_and_filter_blocks := true
  use_bloom_filter := false
  whole_key_filtering := true
  bloom_filter_bits_per_key := 10
  block_based_bloom_filter := false
  compression_per_level := compressionMixed
  write_buffer_size := ReadableSize.mb 128
  max_write_buffer_number := 5
  min_write_buffer_number_to_merge := 1
  max_bytes_for_level_base := ReadableSize.mb 512
  target_file_size_base := ReadableSize.mb 32
  level0_file_num_compaction_trigger := 4
  level0_slowdown_writes_trigger := 20
  level0_stop_writes_trigger := 36
  max_compaction_bytes := ReadableSize.gb 2
  compaction_pri := CompactionPriority.ByCompensatedSize

/-! ## Engine configs -/

/-- `DbConfig`: the main engine config. -/
structure DbConfig where
  wal_recovery_mode : DBRecoveryMode
  wal_dir : String
  wal_ttl_seconds : Nat
  wal_size_limit : ReadableSize
  max_total_wal_size : ReadableSize
  max_background_jobs : Int
  max_manifest_file_size : ReadableSize
  create_if_missing : Bool
  max_open_files : Int
  enable_statistics : Bool
  stats_dump_period : ReadableDuration
  compaction_readahead_size : ReadableSize
  info_log_max_size : ReadableSize
  info_log_roll_time : ReadableDuration
  info_log_dir : String
  rate_bytes_per_sec : ReadableSize
  max_sub_compactions : Nat
  writable_file_max_buffer_size : ReadableSize
  use_direct_io_for_flush_and_compaction : Bool
  enable_pipelined_write : Bool
  backup_dir : String
  defaultcf : CfConfig
  writecf : CfConfig
  lockcf : CfConfig
  raftcf : CfConfig
deriving DecidableEq

/-- `DbConfig::default()`. -/
def DbConfig.default (m : Nat) : DbConfig where
  wal_recovery_mode := DBRecoveryMode.PointInTime
  wal_dir := ""
  wal_ttl_seconds := 0
  wal_size_limit := ReadableSize.kb 0
  max_total_wal_size := ReadableSize.gb 4
  max_background_jobs := 6
  max_manifest_file_size := ReadableSize.mb 20
  create_if_missing := true
  max_open_files := 40960
  enable_statistics := true
  stats_dump_period := ReadableDuration.minutes 10
  compaction_readahead_size := ReadableSize.kb 0
  info_log_max_size := ReadableSize.kb 0
  info_log_roll_time := ReadableDuration.ofSecs 0
  info_log_dir := ""
  rate_bytes_per_sec := ReadableSize.kb 0
  max_sub_compactions := 1
  writable_file_max_buffer_size := ReadableSize.mb 1
  use_direct_io_for_flush_and_compaction := false
  enable_pipelined_write := true
  backup_dir := ""
  defaultcf := DefaultCfConfig.default m
  writecf := WriteCfConfig.default m
  lockcf := LockCfConfig.default m
  raftcf := RaftCfConfig.default

/-- `RaftDbConfig`: the consensus-log engine config. -/
structure RaftDbConfig where
  wal_recovery_mode : DBRecoveryMode
  wal_dir : String
  wal_ttl_seconds : Nat
  wal_size_limit : ReadableSize
  max_total_wal_size : ReadableSize
  max_manifest_file_size : ReadableSize
  create_if_missing : Bool
  max_open_files : Int
  enable_statistics : Bool
  stats_dump_period : ReadableDuration
  compaction_readahead_size : ReadableSize
  info_log_max_size : ReadableSize
  info_log_roll_time : ReadableDuration
  info_log_dir : String
  max_sub_compactions : Nat
  writable_file_max_buffer_size : ReadableSize
  use_direct_io_for_flush_and_compaction : Bool
  enable_pipelined_write : Bool
  allow_concurrent_memtable_write : Bool
  defaultcf : CfConfig
deriving DecidableEq

/-- `RaftDbConfig::default()`. -/
def RaftDbConfig.default (m : Nat) : RaftDbConfig where
  wal_recovery_mode := DBRecoveryMode.PointInTime
  wal_dir := ""
  wal_ttl_seconds := 0
  wal_size_limit := ReadableSize.kb 0
  max_total_wal_size := ReadableSize.gb 4
  max_manifest_file_size := ReadableSize.mb 20
  create_if_missing := true
  max_open_files := 40960
  enable_statistics := true
  stats_dump_period := ReadableDuration.minutes 10
  compaction_readahead_size := ReadableSize.kb 0
  info_log_max_size := ReadableSize.kb 0
  info_log_roll_time := ReadableDuration.ofSecs 0
  info_log_dir := ""
  max_sub_compactions := 1
  writable_file_max_buffer_size := ReadableSize.mb 1
  use_direct_io_for_flush_and_compaction := false
  enable_pipelined_write := true
  allow_concurrent_memtable_write := false
  defaultcf := RaftDefaultCfConfig.default m

/-! ## Satellite configs.  `ServerConfig`, `StorageConfig` and
`RaftstoreConfig` live in sibling modules of the repository; their field
lists and defaults are reconstructed from the default-document test pinned
in `src/src/config.rs`. -/

/-- `PdConfig` (coordination-service endpoints). -/
structure PdConfig where
  endpoints : List String
deriving DecidableEq

def PdConfig.default : PdConfig := ⟨[]⟩

/-- `MetricConfig`. -/
structure MetricConfig where
  interval : ReadableDuration
  address : String
  job : String
deriving DecidableEq

def MetricConfig.default : MetricConfig where
  interval := ReadableDuration.ofSecs 15
  address := ""
  job := "tikv"

/-- Modelled from the spec: `server::Config`, an external collaborator
whose serialized surface and defaults are pinned by the tests in
`src/src/config.rs`.  `cluster_id` is skipped by serialization. -/
structure ServerConfig where
  cluster_id : Nat
  addr : String
  advertise_addr : String
  notify_capacity : Nat
  messages_per_tick : Nat
  grpc_concurrency : Nat
  grpc_concurrent_stream : Int
  grpc_raft_conn_num : Nat
  grpc_stream_initial_window_size : ReadableSize
  end_point_concurrency : Nat
  end_point_max_tasks : Nat
  labels : List (String × String)
deriving DecidableEq

def ServerConfig.default : ServerConfig where
  cluster_id := 0
  addr := "127.0.0.1:20160"
  advertise_addr := ""
  notify_capacity := 40960
  messages_per_tick := 4096
  grpc_concurrency := 4
  grpc_concurrent_stream := 1024
  grpc_raft_conn_num := 10
  grpc_stream_initial_window_size := ReadableSize.mb 2
  end_point_concurrency := 4
  end_point_max_tasks := 2000
  labels := []

/-- Modelled from the spec: `storage::Config`, an external collaborator
(the `gc_ratio_threshold` f64 field is carried as an exact rational). -/
structure StorageConfig where
  data_dir : String
  gc_ratio_threshold : Rat
  scheduler_notify_capacity : Nat
  scheduler_messages_per_tick : Nat
  scheduler_concurrency : Nat
  scheduler_worker_pool_size : Nat
  scheduler_too_busy_threshold : Nat
deriving DecidableEq

/-- The default gc ratio 1.1, as a normalized rational literal. -/
def gcRatioDefault : Rat := Rat.mk' 11 10 (by norm_num) (by norm_num)

def StorageConfig.default : StorageConfig where
  data_dir := ""
  gc_ratio_threshold := gcRatioDefault
  scheduler_notify_capacity := 10240
  scheduler_messages_per_tick := 1024
  scheduler_concurrency := 102400
  scheduler_worker_pool_size := 4
  scheduler_too_busy_threshold := 1000

/-- Modelled from the spec: `raftstore::store::Config`, an external
collaborator; only `raftdb_path` is touched by the validation pass. -/
structure RaftstoreConfig where
  sync_log : Bool
  raftdb_path : String
  capacity : ReadableSize
  raft_base_tick_interval : ReadableDuration
  raft_heartbeat_ticks : Nat
  raft_election_timeout_ticks : Nat
  raft_max_size_per_msg : ReadableSize
  raft_max_inflight_msgs : Nat
  raft_entry_max_size : ReadableSize
  raft_log_gc_tick_interval : ReadableDuration
  raft_log_gc_threshold : Nat
  raft_log_gc_count_limit : Nat
  raft_log_gc_size_limit : ReadableSize
  split_region_check_tick_interval : ReadableDuration
  region_max_size : ReadableSize
  region_split_size : ReadableSize
  region_split_check_diff : ReadableSize
  region_compact_check_interval : ReadableDuration
  region_compact_delete_keys_count : Nat
  pd_heartbeat_tick_interval : ReadableDuration
  pd_store_heartbeat_tick_interval : ReadableDuration
  snap_mgr_gc_tick_interval : ReadableDuration
  snap_gc_timeout : ReadableDuration
  lock_cf_compact_interval : ReadableDuration
  lock_cf_compact_bytes_threshold : ReadableSize
  notify_capacity : Nat
  messages_per_tick : Nat
  max_peer_down_duration : ReadableDuration
  max_leader_missing_duration : ReadableDuration
  snap_apply_batch_size : ReadableSize
  consistency_check_interval : ReadableDuration
  report_region_flow_interval : ReadableDuration
  raft_store_max_leader_lease : ReadableDuration
  right_derive_when_split : Bool
  allow_remove_leader : Bool
deriving DecidableEq

def RaftstoreConfig.default : RaftstoreConfig where
  sync_log := true
  raftdb_path := ""
  capacity := ReadableSize.kb 0
  raft_base_tick_interval := ReadableDuration.ofSecs 1
  raft_heartbeat_ticks := 2
  raft_election_timeout_ticks := 10
  raft_max_size_per_msg := ReadableSize.mb 1
  raft_max_inflight_msgs := 256
  raft_entry_max_size := ReadableSize.mb 8
  raft_log_gc_tick_interval := ReadableDuration.ofSecs 10
  raft_log_gc_threshold := 50
  raft_log_gc_count_limit := 196608
  raft_log_gc_size_limit := ReadableSize.mb 192
  split_region_check_tick_interval := ReadableDuration.ofSecs 10
  region_max_size := ReadableSize.mb 384
  region_split_size := ReadableSize.mb 256
  region_split_check_diff := ReadableSize.mb 32
  region_compact_check_interval := ReadableDuration.ofSecs 0
  region_compact_delete_keys_count := 1000000
  pd_heartbeat_tick_interval := ReadableDuration.minutes 1
  pd_store_heartbeat_tick_interval := ReadableDuration.ofSecs 10
  snap_mgr_gc_tick_interval := ReadableDuration.minutes 1
  snap_gc_timeout := ReadableDuration.hours 4
  lock_cf_compact_interval := ReadableDuration.minutes 10
  lock_cf_compact_bytes_threshold := ReadableSize.mb 256
  notify_capacity := 40960
  messages_per_tick := 4096
  max_peer_down_duration := ReadableDuration.minutes 5
  max_leader_missing_duration := ReadableDuration.hours 2
  snap_apply_batch_size := ReadableSize.mb 10
  consistency_check_interval := ReadableDuration.ofSecs 0
  report_region_flow_interval := ReadableDuration.minutes 1
  raft_store_max_leader_lease := ReadableDuration.ofSecs 9
  right_derive_when_split := true
  allow_remove_leader := false

/-- `TiKvConfig`: the top-level configuration tree. -/
structure TiKvConfig where
  log_level : LogLevelFilter
  log_file : String
  server : ServerConfig
  storage : StorageConfig
  pd : PdConfig
  metric : MetricConfig
  raft_store : RaftstoreConfig
  rocksdb : DbConfig
  raftdb : RaftDbConfig
deriving DecidableEq

/-- `TiKvConfig::default()`, parameterized by the injected host-memory
total (KB). -/
def TiKvConfig.default (m : Nat) : TiKvConfig where
  log_level := LogLevelFilter.Info
  log_file := ""
  server := ServerConfig.default
  storage := StorageConfig.default
  pd := PdConfig.default
  metric := MetricConfig.default
  raft_store := RaftstoreConfig.default
  rocksdb := DbConfig.default m
  raftdb := RaftDbConfig.default m

/-! ## The environment of external collaborators -/

/-- Modelled from the spec: the operations the validation pass and the
engine builders delegate to collaborators outside this source file —
path canonicalization (`util::config::canonicalize_path` /
`canonicalize_sub_path`), on-disk engine detection
(`util::rocksdb::db_exist`), address syntax checking
(`util::config::check_addr`), the foreign subtrees' own validators, the
engine-wide default data directory constant (`DEFAULT_DATA_DIR`), and
info-log directory creation (whose failure is a fatal abort). -/
structure Env where
  storageValidate : StorageConfig → Except String Unit
  serverValidate : ServerConfig → Except String Unit
  raftstoreValidate : RaftstoreConfig → Except String Unit
  checkAddr : String → Except String Unit
  canonicalize_path : String → Except String String
  canonicalize_sub_path : String → String → Except String String
  db_exist : String → Bool
  default_data_dir : String
  create_info_log_ok : String → Bool

/-- Modelled from the spec: `Path::new(a).join(b)` for the relative
component `b`, producing `<a>/<b>` (or `b` when `a` is empty). -/
def pathJoin (a b : String) : String :=
  if a = "" then b else a ++ "/" ++ b

/-! ## DBOptions and `DbConfig::build_opt` -/

/-- DBOptions as a record of performed setter calls. -/
structure DBOptions where
  wal_recovery_mode : Option DBRecoveryMode := none
  wal_dir : Option String := none
  wal_ttl_seconds : Option Nat := none
  wal_size_limit_mb : Option Nat := none
  max_total_wal_size : Option Nat := none
  max_background_jobs : Option Int := none
  max_manifest_file_size : Option Nat := none
  create_if_missing_flag : Option Bool := none
  max_open_files : Option Int := none
  statistics_enabled : Bool := false
  stats_dump_period_sec : Option Nat := none
  compaction_readahead_size : Option Nat := none
  max_log_file_size : Option Nat := none
  log_file_time_to_roll : Option Nat := none
  info_log_dir_created : Option String := none
  ratelimiter : Option Int := none
  max_subcompactions : Option Nat := none
  writable_file_max_buffer_size : Option Int := none
  use_direct_io_for_flush_and_compaction : Option Bool := none
  pipelined_write : Option Bool := none
  concurrent_memtable_write : Option Bool := none
  event_listeners : List String := []
deriving DecidableEq

def DBOptions.new : DBOptions := {}

/-- `DbConfig::build_opt` (config.rs lines 355-397).  The result is `none`
when `create_info_log` fails, modelling the fatal `panic!`.  Note the
faithful `as i64` / `as i32` casts on the rate limiter and the write
buffer size. -/
def DbConfig.build_opt (env : Env) (c : DbConfig) : Option DBOptions :=
  let opts := DBOptions.new
  let opts := { opts with wal_recovery_mode := some c.wal_recovery_mode }
  let opts := if c.wal_dir ≠ "" then { opts with wal_dir := some c.wal_dir } else opts
  let opts := { opts with wal_ttl_seconds := some c.wal_ttl_seconds }
  let opts := { opts with wal_size_limit_mb := some c.wal_size_limit.as_mb }
  let opts := { opts with max_total_wal_size := some c.max_total_wal_size.bytes }
  let opts := { opts with max_background_jobs := some c.max_background_jobs }
  let opts := { opts with max_manifest_file_size := some c.max_manifest_file_size.bytes }
  let opts := { opts with create_if_missing_flag := some c.create_if_missing }
  let opts := { opts with max_open_files := some c.max_open_files }
  let opts :=
    if c.enable_statistics then
      { opts with statistics_enabled := true,
                  stats_dump_period_sec := some c.stats_dump_period.as_secs }
    else opts
  let opts := { opts with compaction_readahead_size := some c.compaction_readahead_size.bytes }
  let opts := { opts with max_log_file_size := some c.info_log_max_size.bytes }
  let opts := { opts with log_file_time_to_roll := some c.info_log_roll_time.as_secs }
  match
    (if c.info_log_dir ≠ "" then
      (if env.create_info_log_ok c.info_log_dir then
        some { opts with info_log_dir_created := some c.info_log_dir }
      else none)
    else some opts) with
  | none => none
  | some opts =>
    let opts :=
      if c.rate_bytes_per_sec.bytes > 0 then
        { opts with ratelimiter := some (i64_of_u64 c.rate_bytes_per_sec.bytes) }
      else opts
    let opts := { opts with max_subcompactions := some c.max_sub_compactions }
    let wb := i32_of_u64 c.writable_file_max_buffer_size.bytes
    let opts := { opts with writable_file_max_buffer_size := some wb }
    let dio := c.use_direct_io_for_flush_and_compaction
    let opts := { opts with use_direct_io_for_flush_and_compaction := some dio }
    let opts := { opts with pipelined_write := some c.enable_pipelined_write }
    let opts := { opts with event_listeners := opts.event_listeners ++ ["kv"] }
    some opts

/-! ## The validation pass -/

/-- `DbConfig::validate` (config.rs lines 408-413): canonicalize the
backup dir when it is set; on failure the field is left unchanged. -/
def DbConfig.validate (env : Env) (c : DbConfig) : DbConfig × Except String Unit :=
  if c.backup_dir ≠ "" then
    match env.canonicalize_path c.backup_dir with
    | Except.error e => (c, Except.error e)
    | Except.ok p => ({ c with backup_dir := p }, Except.ok ())
  else (c, Except.ok ())

/-- Sequential `check_addr` over the endpoint list. -/
def checkAddrAll (env : Env) : List String → Except String Unit
  | [] => Except.ok ()
  | a :: rest =>
    match env.checkAddr a with
    | Except.error e => Except.error e
    | Except.ok _ => checkAddrAll env rest

/-- `PdConfig::validate` (config.rs lines 575-583). -/
def PdConfig.validate (env : Env) (c : PdConfig) : Except String Unit :=
  if c.endpoints = [] then Except.error "please specify pd.endpoints."
  else checkAddrAll env c.endpoints

/-- Step 2 of `TiKvConfig::validate` (config.rs lines 653-658): derive the
backup directory as `<data-dir>/backup` when it is unset and the data dir
is not the engine-wide default. -/
def TiKvConfig.deriveBackupDir (env : Env) (c : TiKvConfig) : TiKvConfig :=
  if c.rocksdb.backup_dir = "" ∧ c.storage.data_dir ≠ env.default_data_dir then
    { c with rocksdb :=
        { c.rocksdb with backup_dir := pathJoin c.storage.data_dir "backup" } }
  else c

/-- Step 3 of `TiKvConfig::validate` (config.rs lines 660-667): derive and
canonicalize the consensus-log engine path. -/
def TiKvConfig.deriveRaftdbPath (env : Env) (c : TiKvConfig) :
    Except String TiKvConfig :=
  match
    (if c.raft_store.raftdb_path = "" then
      env.canonicalize_sub_path c.storage.data_dir "raft"
    else
      env.canonicalize_path c.raft_store.raftdb_path) with
  | Except.error e => Except.error e
  | Except.ok p =>
    Except.ok { c with raft_store := { c.raft_store with raftdb_path := p } }

/-- Steps 6-7 of `TiKvConfig::validate` (config.rs lines 686-690): the
delegated sub-validations, in source order. -/
def TiKvConfig.validateTail (env : Env) (c : TiKvConfig) :
    TiKvConfig × Except String Unit :=
  match DbConfig.validate env c.rocksdb with
  | (db2, Except.error e) => ({ c with rocksdb := db2 }, Except.error e)
  | (db2, Except.ok _) =>
    let c3 := { c with rocksdb := db2 }
    match env.serverValidate c3.server with
    | Except.error e => (c3, Except.error e)
    | Except.ok _ =>
      match env.raftstoreValidate c3.raft_store with
      | Except.error e => (c3, Except.error e)
      | Except.ok _ =>
        match PdConfig.validate env c3.pd with
        | Except.error e => (c3, Except.error e)
        | Except.ok _ => (c3, Except.ok ())

/-- `TiKvConfig::validate` (config.rs lines 651-691), with the in-place
mutation made explicit: the returned tree carries every mutation performed
before the first failure. -/
def TiKvConfig.validate (env : Env) (c : TiKvConfig) :
    TiKvConfig × Except String Unit :=
  match env.storageValidate c.storage with
  | Except.error e => (c, Except.error e)
  | Except.ok _ =>
    let c1 := TiKvConfig.deriveBackupDir env c
    match TiKvConfig.deriveRaftdbPath env c1 with
    | Except.error e => (c1, Except.error e)
    | Except.ok c2 =>
      match env.canonicalize_sub_path c2.storage.data_dir DEFAULT_ROCKSDB_SUB_DIR with
      | Except.error e => (c2, Except.error e)
      | Except.ok kv_db_path =>
        if kv_db_path = c2.raft_store.raftdb_path then
          (c2, Except.error "raft_store.raftdb_path can not same with storage.data_dir/db")
        else if env.db_exist kv_db_path && !(env.db_exist c2.raft_store.raftdb_path) then
          (c2, Except.error "default rocksdb exist, buf raftdb not exist")
        else if !(env.db_exist kv_db_path) && env.db_exist c2.raft_store.raftdb_path then
          (c2, Except.error "default rocksdb not exist, buf raftdb exist")
        else
          TiKvConfig.validateTail env c2

/-! ## Serialization model for the round-trip contract.

Modelled from the spec: the textual configuration document is a nested
key-value table using kebab-case keys; absent keys keep the compiled-in
default and unknown keys are ignored.  The text ↔ value layer for the leaf
unit types (size/duration magnitudes, floats) is the external parsing
round trip the spec assumes correct, so a document is modelled at the
table level, with leaf wire values carried exactly. -/

inductive TomlValue where
  | str (s : String)
  | int (i : Int)
  | boolV (b : Bool)
  | flt (q : Rat)
  | size (n : Nat)
  | dur (n : Nat)
  | strArr (ss : List String)
  | table (kvs : List (String × TomlValue))

/-- First value bound to key `k`. -/
def lookupKV (kvs : List (String × TomlValue)) (k : String) : Option TomlValue :=
  match kvs with
  | [] => none
  | (k2, v) :: rest => if k = k2 then some v else lookupKV rest k

def getStr (kvs : List (String × TomlValue)) (k : String) (d : String) : String :=
  match lookupKV kvs k with
  | some (TomlValue.str s) => s
  | _ => d

def getNat (kvs : List (String × TomlValue)) (k : String) (d : Nat) : Nat :=
  match lookupKV kvs k with
  | some (TomlValue.int i) => i.toNat
  | _ => d

def getInt (kvs : List (String × TomlValue)) (k : String) (d : Int) : Int :=
  match lookupKV kvs k with
  | some (TomlValue.int i) => i
  | _ => d

def getBool (kvs : List (String × TomlValue)) (k : String) (d : Bool) : Bool :=
  match lookupKV kvs k with
  | some (TomlValue.boolV b) => b
  | _ => d

def getFlt (kvs : List (String × TomlValue)) (k : String) (d : Rat) : Rat :=
  match lookupKV kvs k with
  | some (TomlValue.flt q) => q
  | _ => d

def getSize (kvs : List (String × TomlValue)) (k : String) (d : ReadableSize) :
    ReadableSize :=
  match lookupKV kvs k with
  | some (TomlValue.size n) => ⟨n⟩
  | _ => d

def getDur (kvs : List (String × TomlValue)) (k : String) (d : ReadableDuration) :
    ReadableDuration :=
  match lookupKV kvs k with
  | some (TomlValue.dur n) => ⟨n⟩
  | _ => d

def getStrArr (kvs : List (String × TomlValue)) (k : String) (d : List String) :
    List String :=
  match lookupKV kvs k with
  | some (TomlValue.strArr ss) => ss
  | _ => d

def getTable (kvs : List (String × TomlValue)) (k : String) :
    List (String × TomlValue) :=
  match lookupKV kvs k with
  | some (TomlValue.table t) => t
  | _ => []

/-! ### Wire mappings of the closed enumerations (util::config serde
helpers, reconstructed from the documents pinned by the tests) -/

def logLevelToStr : LogLevelFilter → String
  | LogLevelFilter.Info => "info"
  | LogLevelFilter.Trace => "trace"
  | LogLevelFilter.Debug => "debug"
  | LogLevelFilter.Warn => "warn"
  | LogLevelFilter.Error => "error"
  | LogLevelFilter.Off => "off"

def logLevelOfStr (s : String) : Option LogLevelFilter :=
  if s = "info" then some LogLevelFilter.Info
  else if s = "trace" then some LogLevelFilter.Trace
  else if s = "debug" then some LogLevelFilter.Debug
  else if s = "warn" then some LogLevelFilter.Warn
  else if s = "error" then some LogLevelFilter.Error
  else if s = "off" then some LogLevelFilter.Off
  else none

def getLogLevel (kvs : List (String × TomlValue)) (k : String)
    (d : LogLevelFilter) : LogLevelFilter :=
  match lookupKV kvs k with
  | some (TomlValue.str s) => (logLevelOfStr s).getD d
  | _ => d

def recoveryModeToInt : DBRecoveryMode → Int
  | DBRecoveryMode.TolerateCorruptedTailRecords => 0
  | DBRecoveryMode.AbsoluteConsistency => 1
  | DBRecoveryMode.PointInTime => 2
  | DBRecoveryMode.SkipAnyCorruptedRecords => 3

def recoveryModeOfInt (i : Int) : Option DBRecoveryMode :=
  if i = 0 then some DBRecoveryMode.TolerateCorruptedTailRecords
  else if i = 1 then some DBRecoveryMode.AbsoluteConsistency
  else if i = 2 then some DBRecoveryMode.PointInTime
  else if i = 3 then some DBRecoveryMode.SkipAnyCorruptedRecords
  else none

def getRecoveryMode (kvs : List (String × TomlValue)) (k : String)
    (d : DBRecoveryMode) : DBRecoveryMode :=
  match lookupKV kvs k with
  | some (TomlValue.int i) => (recoveryModeOfInt i).getD d
  | _ => d

def compactionPriToInt : CompactionPriority → Int
  | CompactionPriority.ByCompensatedSize => 0
  | CompactionPriority.OldestLargestSeqFirst => 1
  | CompactionPriority.OldestSmallestSeqFirst => 2
  | CompactionPriority.MinOverlapping => 3

def compactionPriOfInt (i : Int) : Option CompactionPriority :=
  if i = 0 then some CompactionPriority.ByCompensatedSize
  else if i = 1 then some CompactionPriority.OldestLargestSeqFirst
  else if i = 2 then some CompactionPriority.OldestSmallestSeqFirst
  else if i = 3 then some CompactionPriority.MinOverlapping
  else none

def getCompactionPri (kvs : List (String × TomlValue)) (k : String)
    (d : CompactionPriority) : CompactionPriority :=
  match lookupKV kvs k with
  | some (TomlValue.int i) => (compactionPriOfInt i).getD d
  | _ => d

def compressionToStr : DBCompressionType → String
  | DBCompressionType.no => "no"
  | DBCompressionType.snappy => "snappy"
  | DBCompressionType.zlib => "zlib"
  | DBCompressionType.bzip2 => "bzip2"
  | DBCompressionType.lz4 => "lz4"
  | DBCompressionType.lz4hc => "lz4hc"
  | DBCompressionType.zstd => "zstd"

def compressionOfStr (s : String) : Option DBCompressionType :=
  if s = "no" then some DBCompressionType.no
  else if s = "snappy" then some DBCompressionType.snappy
  else if s = "zlib" then some DBCompressionType.zlib
  else if s = "bzip2" then some DBCompressionType.bzip2
  else if s = "lz4" then some DBCompressionType.lz4
  else if s = "lz4hc" then some DBCompressionType.lz4hc
  else if s = "zstd" then some DBCompressionType.zstd
  else none

def compression7ToStrs (c : Compression7) : List String :=
  [compressionToStr c.l0, compressionToStr c.l1, compressionToStr c.l2,
   compressionToStr c.l3, compressionToStr c.l4, compressionToStr c.l5,
   compressionToStr c.l6]

def compression7OfStrs (d : Compression7) (ss : List String) : Compression7 :=
  match ss with
  | [a0, a1, a2, a3, a4, a5, a6] =>
    match compressionOfStr a0, compressionOfStr a1, compressionOfStr a2,
          compressionOfStr a3, compressionOfStr a4, compressionOfStr a5,
          compressionOfStr a6 with
    | some b0, some b1, some b2, some b3, some b4, some b5, some b6 =>
      ⟨b0, b1, b2, b3, b4, b5, b6⟩
    | _, _, _, _, _, _, _ => d
  | _ => d

def getCompression (kvs : List (String × TomlValue)) (k : String)
    (d : Compression7) : Compression7 :=
  match lookupKV kvs k with
  | some (TomlValue.strArr ss) => compression7OfStrs d ss
  | _ => d

def encodeLabels (l : List (String × String)) : List (String × TomlValue) :=
  l.map (fun p => (p.1, TomlValue.str p.2))

def decodeLabels (kvs : List (String × TomlValue)) : List (String × String) :=
  kvs.filterMap (fun p =>
    match p.2 with
    | TomlValue.str s => some (p.1, s)
    | _ => none)

def getLabels (kvs : List (String × TomlValue)) (k : String)
    (d : List (String × String)) : List (String × String) :=
  match lookupKV kvs k with
  | some (TomlValue.table t) => decodeLabels t
  | _ => d

/-! ### Per-struct document encoders and decoders.  `toToml` serializes a
tree; `ofToml d kvs` deserializes a document onto the tree `d`, each field
taking the value at its key when present and keeping `d`'s value
otherwise (serde `#[serde(default)]` semantics). -/

def CfConfig.toToml (c : CfConfig) : List (String × TomlValue) :=
  [("block-size", TomlValue.size c.block_size.bytes),
   ("block-cache-size", TomlValue.size c.block_cache_size.bytes),
   ("cache-index-and-filter-blocks", TomlValue.boolV c.cache_index_and_filter_blocks),
   ("use-bloom-filter", TomlValue.boolV c.use_bloom_filter),
   ("whole-key-filtering", TomlValue.boolV c.whole_key_filtering),
   ("bloom-filter-bits-per-key", TomlValue.int c.bloom_filter_bits_per_key),
   ("block-based-bloom-filter", TomlValue.boolV c.block_based_bloom_filter),
   ("compression-per-level", TomlValue.strArr (compression7ToStrs c.compression_per_level)),
   ("write-buffer-size", TomlValue.size c.write_buffer_size.bytes),
   ("max-write-buffer-number", TomlValue.int c.max_write_buffer_number),
   ("min-write-buffer-number-to-merge", TomlValue.int c.min_write_buffer_number_to_merge),
   ("max-bytes-for-level-base", TomlValue.size c.max_bytes_for_level_base.bytes),
   ("target-file-size-base", TomlValue.size c.target_file_size_base.bytes),
   ("level0-file-num-compaction-trigger", TomlValue.int c.level0_file_num_compaction_trigger),
   ("level0-slowdown-writes-trigger", TomlValue.int c.level0_slowdown_writes_trigger),
   ("level0-stop-writes-trigger", TomlValue.int c.level0_stop_writes_trigger),
   ("max-compaction-bytes", TomlValue.size c.max_compaction_bytes.bytes),
   ("compaction-pri", TomlValue.int (compactionPriToInt c.compaction_pri))]

def CfConfig.ofToml (d : CfConfig) (kvs : List (String × TomlValue)) : CfConfig where
  block_size := getSize kvs "block-size" d.block_size
  block_cache_size := getSize kvs "block-cache-size" d.block_cache_size
  cache_index_and_filter_blocks :=
    getBool kvs "cache-index-and-filter-blocks" d.cache_index_and_filter_blocks
  use_bloom_filter := getBool kvs "use-bloom-filter" d.use_bloom_filter
  whole_key_filtering := getBool kvs "whole-key-filtering" d.whole_key_filtering
  bloom_filter_bits_per_key :=
    getInt kvs "bloom-filter-bits-per-key" d.bloom_filter_bits_per_key
  block_based_bloom_filter :=
    getBool kvs "block-based-bloom-filter" d.block_based_bloom_filter
  compression_per_level :=
    getCompression kvs "compression-per-level" d.compression_per_level
  write_buffer_size := getSize kvs "write-buffer-size" d.write_buffer_size
  max_write_buffer_number := getInt kvs "max-write-buffer-number" d.max_write_buffer_number
  min_write_buffer_number_to_merge :=
    getInt kvs "min-write-buffer-number-to-merge" d.min_write_buffer_number_to_merge
  max_bytes_for_level_base :=
    getSize kvs "max-bytes-for-level-base" d.max_bytes_for_level_base
  target_file_size_base := getSize kvs "target-file-size-base" d.target_file_size_base
  level0_file_num_compaction_trigger :=
    getInt kvs "level0-file-num-compaction-trigger" d.level0_file_num_compaction_trigger
  level0_slowdown_writes_trigger :=
    getInt kvs "level0-slowdown-writes-trigger" d.level0_slowdown_writes_trigger
  level0_stop_writes_trigger :=
    getInt kvs "level0-stop-writes-trigger" d.level0_stop_writes_trigger
  max_compaction_bytes := getSize kvs "max-compaction-bytes" d.max_compaction_bytes
  compaction_pri := getCompactionPri kvs "compaction-pri" d.compaction_pri

def DbConfig.toToml (c : DbConfig) : List (String × TomlValue) :=
  [("wal-recovery-mode", TomlValue.int (recoveryModeToInt c.wal_recovery_mode)),
   ("wal-dir", TomlValue.str c.wal_dir),
   ("wal-ttl-seconds", TomlValue.int (Int.ofNat c.wal_ttl_seconds)),
   ("wal-size-limit", TomlValue.size c.wal_size_limit.bytes),
   ("max-total-wal-size", TomlValue.size c.max_total_wal_size.bytes),
   ("max-background-jobs", TomlValue.int c.max_background_jobs),
   ("max-manifest-file-size", TomlValue.size c.max_manifest_file_size.bytes),
   ("create-if-missing", TomlValue.boolV c.create_if_missing),
   ("max-open-files", TomlValue.int c.max_open_files),
   ("enable-statistics", TomlValue.boolV c.enable_statistics),
   ("stats-dump-period", TomlValue.dur c.stats_dump_period.secs),
   ("compaction-readahead-size", TomlValue.size c.compaction_readahead_size.bytes),
   ("info-log-max-size", TomlValue.size c.info_log_max_size.bytes),
   ("info-log-roll-time", TomlValue.dur c.info_log_roll_time.secs),
   ("info-log-dir", TomlValue.str c.info_log_dir),
   ("rate-bytes-per-sec", TomlValue.size c.rate_bytes_per_sec.bytes),
   ("max-sub-compactions", TomlValue.int (Int.ofNat c.max_sub_compactions)),
   ("writable-file-max-buffer-size", TomlValue.size c.writable_file_max_buffer_size.bytes),
   ("use-direct-io-for-flush-and-compaction",
     TomlValue.boolV c.use_direct_io_for_flush_and_compaction),
   ("enable-pipelined-write", TomlValue.boolV c.enable_pipelined_write),
   ("backup-dir", TomlValue.str c.backup_dir),
   ("defaultcf", TomlValue.table c.defaultcf.toToml),
   ("writecf", TomlValue.table c.writecf.toToml),
   ("lockcf", TomlValue.table c.lockcf.toToml),
   ("raftcf", TomlValue.table c.raftcf.toToml)]

def DbConfig.ofToml (d : DbConfig) (kvs : List (String × TomlValue)) : DbConfig where
  wal_recovery_mode := getRecoveryMode kvs "wal-recovery-mode" d.wal_recovery_mode
  wal_dir := getStr kvs "wal-dir" d.wal_dir
  wal_ttl_seconds := getNat kvs "wal-ttl-seconds" d.wal_ttl_seconds
  wal_size_limit := getSize kvs "wal-size-limit" d.wal_size_limit
  max_total_wal_size := getSize kvs "max-total-wal-size" d.max_total_wal_size
  max_background_jobs := getInt kvs "max-background-jobs" d.max_background_jobs
  max_manifest_file_size := getSize kvs "max-manifest-file-size" d.max_manifest_file_size
  create_if_missing := getBool kvs "create-if-missing" d.create_if_missing
  max_open_files := getInt kvs "max-open-files" d.max_open_files
  enable_statistics := getBool kvs "enable-statistics" d.enable_statistics
  stats_dump_period := getDur kvs "stats-dump-period" d.stats_dump_period
  compaction_readahead_size :=
    getSize kvs "compaction-readahead-size" d.compaction_readahead_size
  info_log_max_size := getSize kvs "info-log-max-size" d.info_log_max_size
  info_log_roll_time := getDur kvs "info-log-roll-time" d.info_log_roll_time
  info_log_dir := getStr kvs "info-log-dir" d.info_log_dir
  rate_bytes_per_sec := getSize kvs "rate-bytes-per-sec" d.rate_bytes_per_sec
  max_sub_compactions := getNat kvs "max-sub-compactions" d.max_sub_compactions
  writable_file_max_buffer_size :=
    getSize kvs "writable-file-max-buffer-size" d.writable_file_max_buffer_size
  use_direct_io_for_flush_and_compaction :=
    getBool kvs "use-direct-io-for-flush-and-compaction"
      d.use_direct_io_for_flush_and_compaction
  enable_pipelined_write := getBool kvs "enable-pipelined-write" d.enable_pipelined_write
  backup_dir := getStr kvs "backup-dir" d.backup_dir
  defaultcf := CfConfig.ofToml d.defaultcf (getTable kvs "defaultcf")
  writecf := CfConfig.ofToml d.writecf (getTable kvs "writecf")
  lockcf := CfConfig.ofToml d.lockcf (getTable kvs "lockcf")
  raftcf := CfConfig.ofToml d.raftcf (getTable kvs "raftcf")

def RaftDbConfig.toToml (c : RaftDbConfig) : List (String × TomlValue) :=
  [("wal-recovery-mode", TomlValue.int (recoveryModeToInt c.wal_recovery_mode)),
   ("wal-dir", TomlValue.str c.wal_dir),
   ("wal-ttl-seconds", TomlValue.int (Int.ofNat c.wal_ttl_seconds)),
   ("wal-size-limit", TomlValue.size c.wal_size_limit.bytes),
   ("max-total-wal-size", TomlValue.size c.max_total_wal_size.bytes),
   ("max-manifest-file-size", TomlValue.size c.max_manifest_file_size.bytes),
   ("create-if-missing", TomlValue.boolV c.create_if_missing),
   ("max-open-files", TomlValue.int c.max_open_files),
   ("enable-statistics", TomlValue.boolV c.enable_statistics),
   ("stats-dump-period", TomlValue.dur c.stats_dump_period.secs),
   ("compaction-readahead-size", TomlValue.size c.compaction_readahead_size.bytes),
   ("info-log-max-size", TomlValue.size c.info_log_max_size.bytes),
   ("info-log-roll-time", TomlValue.dur c.info_log_roll_time.secs),
   ("info-log-dir", TomlValue.str c.info_log_dir),
   ("max-sub-compactions", TomlValue.int (Int.ofNat c.max_sub_compactions)),
   ("writable-file-max-buffer-size", TomlValue.size c.writable_file_max_buffer_size.bytes),
   ("use-direct-io-for-flush-and-compaction",
     TomlValue.boolV c.use_direct_io_for_flush_and_compaction),
   ("enable-pipelined-write", TomlValue.boolV c.enable_pipelined_write),
   ("allow-concurrent-memtable-write", TomlValue.boolV c.allow_concurrent_memtable_write),
   ("defaultcf", TomlValue.table c.defaultcf.toToml)]

def RaftDbConfig.ofToml (d : RaftDbConfig) (kvs : List (String × TomlValue)) :
    RaftDbConfig where
  wal_recovery_mode := getRecoveryMode kvs "wal-recovery-mode" d.wal_recovery_mode
  wal_dir := getStr kvs "wal-dir" d.wal_dir
  wal_ttl_seconds := getNat kvs "wal-ttl-seconds" d.wal_ttl_seconds
  wal_size_limit := getSize kvs "wal-size-limit" d.wal_size_limit
  max_total_wal_size := getSize kvs "max-total-wal-size" d.max_total_wal_size
  max_manifest_file_size := getSize kvs "max-manifest-file-size" d.max_manifest_file_size
  create_if_missing := getBool kvs "create-if-missing" d.create_if_missing
  max_open_files := getInt kvs "max-open-files" d.max_open_files
  enable_statistics := getBool kvs "enable-statistics" d.enable_statistics
  stats_dump_period := getDur kvs "stats-dump-period" d.stats_dump_period
  compaction_readahead_size :=
    getSize kvs "compaction-readahead-size" d.compaction_readahead_size
  info_log_max_size := getSize kvs "info-log-max-size" d.info_log_max_size
  info_log_roll_time := getDur kvs "info-log-roll-time" d.info_log_roll_time
  info_log_dir := getStr kvs "info-log-dir" d.info_log_dir
  max_sub_compactions := getNat kvs "max-sub-compactions" d.max_sub_compactions
  writable_file_max_buffer_size :=
    getSize kvs "writable-file-max-buffer-size" d.writable_file_max_buffer_size
  use_direct_io_for_flush_and_compaction :=
    getBool kvs "use-direct-io-for-flush-and-compaction"
      d.use_direct_io_for_flush_and_compaction
  enable_pipelined_write := getBool kvs "enable-pipelined-write" d.enable_pipelined_write
  allow_concurrent_memtable_write :=
    getBool kvs "allow-concurrent-memtable-write" d.allow_concurrent_memtable_write
  defaultcf := CfConfig.ofToml d.defaultcf (getTable kvs "defaultcf")

def ServerConfig.toToml (c : ServerConfig) : List (String × TomlValue) :=
  [("addr", TomlValue.str c.addr),
   ("advertise-addr", TomlValue.str c.advertise_addr),
   ("notify-capacity", TomlValue.int (Int.ofNat c.notify_capacity)),
   ("messages-per-tick", TomlValue.int (Int.ofNat c.messages_per_tick)),
   ("grpc-concurrency", TomlValue.int (Int.ofNat c.grpc_concurrency)),
   ("grpc-concurrent-stream", TomlValue.int c.grpc_concurrent_stream),
   ("grpc-raft-conn-num", TomlValue.int (Int.ofNat c.grpc_raft_conn_num)),
   ("grpc-stream-initial-window-size",
     TomlValue.size c.grpc_stream_initial_window_size.bytes),
   ("end-point-concurrency", TomlValue.int (Int.ofNat c.end_point_concurrency)),
   ("end-point-max-tasks", TomlValue.int (Int.ofNat c.end_point_max_tasks)),
   ("labels", TomlValue.table (encodeLabels c.labels))]

def ServerConfig.ofToml (d : ServerConfig) (kvs : List (String × TomlValue)) :
    ServerConfig where
  cluster_id := d.cluster_id
  addr := getStr kvs "addr" d.addr
  advertise_addr := getStr kvs "advertise-addr" d.advertise_addr
  notify_capacity := getNat kvs "notify-capacity" d.notify_capacity
  messages_per_tick := getNat kvs "messages-per-tick" d.messages_per_tick
  grpc_concurrency := getNat kvs "grpc-concurrency" d.grpc_concurrency
  grpc_concurrent_stream := getInt kvs "grpc-concurrent-stream" d.grpc_concurrent_stream
  grpc_raft_conn_num := getNat kvs "grpc-raft-conn-num" d.grpc_raft_conn_num
  grpc_stream_initial_window_size :=
    getSize kvs "grpc-stream-initial-window-size" d.grpc_stream_initial_window_size
  end_point_concurrency := getNat kvs "end-point-concurrency" d.end_point_concurrency
  end_point_max_tasks := getNat kvs "end-point-max-tasks" d.end_point_max_tasks
  labels := getLabels kvs "labels" d.labels

def StorageConfig.toToml (c : StorageConfig) : List (String × TomlValue) :=
  [("data-dir", TomlValue.str c.data_dir),
   ("gc-ratio-threshold", TomlValue.flt c.gc_ratio_threshold),
   ("scheduler-notify-capacity", TomlValue.int (Int.ofNat c.scheduler_notify_capacity)),
   ("scheduler-messages-per-tick",
     TomlValue.int (Int.ofNat c.scheduler_messages_per_tick)),
   ("scheduler-concurrency", TomlValue.int (Int.ofNat c.scheduler_concurrency)),
   ("scheduler-worker-pool-size",
     TomlValue.int (Int.ofNat c.scheduler_worker_pool_size)),
   ("scheduler-too-busy-threshold",
     TomlValue.int (Int.ofNat c.scheduler_too_busy_threshold))]

def StorageConfig.ofToml (d : StorageConfig) (kvs : List (String × TomlValue)) :
    StorageConfig where
  data_dir := getStr kvs "data-dir" d.data_dir
  gc_ratio_threshold := getFlt kvs "gc-ratio-threshold" d.gc_ratio_threshold
  scheduler_notify_capacity :=
    getNat kvs "scheduler-notify-capacity" d.scheduler_notify_capacity
  scheduler_messages_per_tick :=
    getNat kvs "scheduler-messages-per-tick" d.scheduler_messages_per_tick
  scheduler_concurrency := getNat kvs "scheduler-concurrency" d.scheduler_concurrency
  scheduler_worker_pool_size :=
    getNat kvs "scheduler-worker-pool-size" d.scheduler_worker_pool_size
  scheduler_too_busy_threshold :=
    getNat kvs "scheduler-too-busy-threshold" d.scheduler_too_busy_threshold

def PdConfig.toToml (c : PdConfig) : List (String × TomlValue) :=
  [("endpoints", TomlValue.strArr c.endpoints)]

def PdConfig.ofToml (d : PdConfig) (kvs : List (String × TomlValue)) : PdConfig where
  endpoints := getStrArr kvs "endpoints" d.endpoints

def MetricConfig.toToml (c : MetricConfig) : List (String × TomlValue) :=
  [("interval", TomlValue.dur c.interval.secs),
   ("address", TomlValue.str c.address),
   ("job", TomlValue.str c.job)]

def MetricConfig.ofToml (d : MetricConfig) (kvs : List (String × TomlValue)) :
    MetricConfig where
  interval := getDur kvs "interval" d.interval
  address := getStr kvs "address" d.address
  job := getStr kvs "job" d.job

def RaftstoreConfig.toToml (c : RaftstoreConfig) : List (String × TomlValue) :=
  [("sync-log", TomlValue.boolV c.sync_log),
   ("raftdb-path", TomlValue.str c.raftdb_path),
   ("capacity", TomlValue.size c.capacity.bytes),
   ("raft-base-tick-interval", TomlValue.dur c.raft_base_tick_interval.secs),
   ("raft-heartbeat-ticks", TomlValue.int (Int.ofNat c.raft_heartbeat_ticks)),
   ("raft-election-timeout-ticks",
     TomlValue.int (Int.ofNat c.raft_election_timeout_ticks)),
   ("raft-max-size-per-msg", TomlValue.size c.raft_max_size_per_msg.bytes),
   ("raft-max-inflight-msgs", TomlValue.int (Int.ofNat c.raft_max_inflight_msgs)),
   ("raft-entry-max-size", TomlValue.size c.raft_entry_max_size.bytes),
   ("raft-log-gc-tick-interval", TomlValue.dur c.raft_log_gc_tick_interval.secs),
   ("raft-log-gc-threshold", TomlValue.int (Int.ofNat c.raft_log_gc_threshold)),
   ("raft-log-gc-count-limit", TomlValue.int (Int.ofNat c.raft_log_gc_count_limit)),
   ("raft-log-gc-size-limit", TomlValue.size c.raft_log_gc_size_limit.bytes),
   ("split-region-check-tick-interval",
     TomlValue.dur c.split_region_check_tick_interval.secs),
   ("region-max-size", TomlValue.size c.region_max_size.bytes),
   ("region-split-size", TomlValue.size c.region_split_size.bytes),
   ("region-split-check-diff", TomlValue.size c.region_split_check_diff.bytes),
   ("region-compact-check-interval",
     TomlValue.dur c.region_compact_check_interval.secs),
   ("region-compact-delete-keys-count",
     TomlValue.int (Int.ofNat c.region_compact_delete_keys_count)),
   ("pd-heartbeat-tick-interval", TomlValue.dur c.pd_heartbeat_tick_interval.secs),
   ("pd-store-heartbeat-tick-interval",
     TomlValue.dur c.pd_store_heartbeat_tick_interval.secs),
   ("snap-mgr-gc-tick-interval", TomlValue.dur c.snap_mgr_gc_tick_interval.secs),
   ("snap-gc-timeout", TomlValue.dur c.snap_gc_timeout.secs),
   ("lock-cf-compact-interval", TomlValue.dur c.lock_cf_compact_interval.secs),
   ("lock-cf-compact-bytes-threshold",
     TomlValue.size c.lock_cf_compact_bytes_threshold.bytes),
   ("notify-capacity", TomlValue.int (Int.ofNat c.notify_capacity)),
   ("messages-per-tick", TomlValue.int (Int.ofNat c.messages_per_tick)),
   ("max-peer-down-duration", TomlValue.dur c.max_peer_down_duration.secs),
   ("max-leader-missing-duration", TomlValue.dur c.max_leader_missing_duration.secs),
   ("snap-apply-batch-size", TomlValue.size c.snap_apply_batch_size.bytes),
   ("consistency-check-interval", TomlValue.dur c.consistency_check_interval.secs),
   ("report-region-flow-interval", TomlValue.dur c.report_region_flow_interval.secs),
   ("raft-store-max-leader-lease", TomlValue.dur c.raft_store_max_leader_lease.secs),
   ("right-derive-when-split", TomlValue.boolV c.right_derive_when_split),
   ("allow-remove-leader", TomlValue.boolV c.allow_remove_leader)]

def RaftstoreConfig.ofToml (d : RaftstoreConfig) (kvs : List (String × TomlValue)) :
    RaftstoreConfig where
  sync_log := getBool kvs "sync-log" d.sync_log
  raftdb_path := getStr kvs "raftdb-path" d.raftdb_path
  capacity := getSize kvs "capacity" d.capacity
  raft_base_tick_interval := getDur kvs "raft-base-tick-interval" d.raft_base_tick_interval
  raft_heartbeat_ticks := getNat kvs "raft-heartbeat-ticks" d.raft_heartbeat_ticks
  raft_election_timeout_ticks :=
    getNat kvs "raft-election-timeout-ticks" d.raft_election_timeout_ticks
  raft_max_size_per_msg := getSize kvs "raft-max-size-per-msg" d.raft_max_size_per_msg
  raft_max_inflight_msgs := getNat kvs "raft-max-inflight-msgs" d.raft_max_inflight_msgs
  raft_entry_max_size := getSize kvs "raft-entry-max-size" d.raft_entry_max_size
  raft_log_gc_tick_interval :=
    getDur kvs "raft-log-gc-tick-interval" d.raft_log_gc_tick_interval
  raft_log_gc_threshold := getNat kvs "raft-log-gc-threshold" d.raft_log_gc_threshold
  raft_log_gc_count_limit :=
    getNat kvs "raft-log-gc-count-limit" d.raft_log_gc_count_limit
  raft_log_gc_size_limit :=
    getSize kvs "raft-log-gc-size-limit" d.raft_log_gc_size_limit
  split_region_check_tick_interval :=
    getDur kvs "split-region-check-tick-interval" d.split_region_check_tick_interval
  region_max_size := getSize kvs "region-max-size" d.region_max_size
  region_split_size := getSize kvs "region-split-size" d.region_split_size
  region_split_check_diff :=
    getSize kvs "region-split-check-diff" d.region_split_check_diff
  region_compact_check_interval :=
    getDur kvs "region-compact-check-interval" d.region_compact_check_interval
  region_compact_delete_keys_count :=
    getNat kvs "region-compact-delete-keys-count" d.region_compact_delete_keys_count
  pd_heartbeat_tick_interval :=
    getDur kvs "pd-heartbeat-tick-interval" d.pd_heartbeat_tick_interval
  pd_store_heartbeat_tick_interval :=
    getDur kvs "pd-store-heartbeat-tick-interval" d.pd_store_heartbeat_tick_interval
  snap_mgr_gc_tick_interval :=
    getDur kvs "snap-mgr-gc-tick-interval" d.snap_mgr_gc_tick_interval
  snap_gc_timeout := getDur kvs "snap-gc-timeout" d.snap_gc_timeout
  lock_cf_compact_interval :=
    getDur kvs "lock-cf-compact-interval" d.lock_cf_compact_interval
  lock_cf_compact_bytes_threshold :=
    getSize kvs "lock-cf-compact-bytes-threshold" d.lock_cf_compact_bytes_threshold
  notify_capacity := getNat kvs "notify-capacity" d.notify_capacity
  messages_per_tick := getNat kvs "messages-per-tick" d.messages_per_tick
  max_peer_down_duration := getDur kvs "max-peer-down-duration" d.max_peer_down_duration
  max_leader_missing_duration :=
    getDur kvs "max-leader-missing-duration" d.max_leader_missing_duration
  snap_apply_batch_size := getSize kvs "snap-apply-batch-size" d.snap_apply_batch_size
  consistency_check_interval :=
    getDur kvs "consistency-check-interval" d.consistency_check_interval
  report_region_flow_interval :=
    getDur kvs "report-region-flow-interval" d.report_region_flow_interval
  raft_store_max_leader_lease :=
    getDur kvs "raft-store-max-leader-lease" d.raft_store_max_leader_lease
  right_derive_when_split := getBool kvs "right-derive-when-split" d.right_derive_when_split
  allow_remove_leader := getBool kvs "allow-remove-leader" d.allow_remove_leader

def TiKvConfig.toToml (c : TiKvConfig) : List (String × TomlValue) :=
  [("log-level", TomlValue.str (logLevelToStr c.log_level)),
   ("log-file", TomlValue.str c.log_file),
   ("server", TomlValue.table c.server.toToml),
   ("storage", TomlValue.table c.storage.toToml),
   ("pd", TomlValue.table c.pd.toToml),
   ("metric", TomlValue.table c.metric.toToml),
   ("raftstore", TomlValue.table c.raft_store.toToml),
   ("rocksdb", TomlValue.table c.rocksdb.toToml),
   ("raftdb", TomlValue.table c.raftdb.toToml)]

def TiKvConfig.ofToml (d : TiKvConfig) (kvs : List (String × TomlValue)) :
    TiKvConfig where
  log_level := getLogLevel kvs "log-level" d.log_level
  log_file := getStr kvs "log-file" d.log_file
  server := ServerConfig.ofToml d.server (getTable kvs "server")
  storage := StorageConfig.ofToml d.storage (getTable kvs "storage")
  pd := PdConfig.ofToml d.pd (getTable kvs "pd")
  metric := MetricConfig.ofToml d.metric (getTable kvs "metric")
  raft_store := RaftstoreConfig.ofToml d.raft_store (getTable kvs "raftstore")
  rocksdb := DbConfig.ofToml d.rocksdb (getTable kvs "rocksdb")
  raftdb := RaftDbConfig.ofToml d.raftdb (getTable kvs "raftdb")

instance {e a : Type} [DecidableEq e] [DecidableEq a] : DecidableEq (Except e a) :=
  fun x y =>
    match x, y with
    | Except.ok v, Except.ok w =>
      if h : v = w then isTrue (by rw [h]) else isFalse (by simp [h])
    | Except.error v, Except.error w =>
      if h : v = w then isTrue (by rw [h]) else isFalse (by simp [h])
    | Except.ok _, Except.error _ => isFalse (by simp)
    | Except.error _, Except.ok _ => isFalse (by simp)

/-! ## Concrete environments and trees used by the witnesses -/

/-- A benign environment: canonicalization is the identity (sub-paths are
joined with a slash), nothing exists on disk, every delegated validation
succeeds. -/
def envOk : Env where
  storageValidate := fun _ => Except.ok ()
  serverValidate := fun _ => Except.ok ()
  raftstoreValidate := fun _ => Except.ok ()
  checkAddr := fun _ => Except.ok ()
  canonicalize_path := fun s => Except.ok s
  canonicalize_sub_path := fun a b => Except.ok (a ++ "/" ++ b)
  db_exist := fun _ => false
  default_data_dir := "/tmp/tikv/store"
  create_info_log_ok := fun _ => true

/-- Environment whose storage validation fails. -/
def envStorageFail : Env := { envOk with storageValidate := fun _ => Except.error "se" }

/-- Environment whose sub-path canonicalization fails. -/
def envSubFail : Env :=
  { envOk with canonicalize_sub_path := fun _ _ => Except.error "re" }

/-- Environment whose sub-path canonicalization fails only for the main
engine subdirectory. -/
def envDbSubFail : Env :=
  { envOk with canonicalize_sub_path := fun a b =>
      if b = "db" then Except.error "de" else Except.ok (a ++ "/" ++ b) }

/-- Environment where exactly the main engine data directory exists. -/
def envExistKv : Env := { envOk with db_exist := fun s => s == "/data/db" }

/-- Environment whose plain-path canonicalization fails. -/
def envPathFail : Env :=
  { envOk with canonicalize_path := fun _ => Except.error "ce" }

/-- Environment whose server validation fails (and whose raftstore
validation would fail differently, to witness the short circuit). -/
def envServerFail : Env :=
  { envOk with serverValidate := fun _ => Except.error "sv",
               raftstoreValidate := fun _ => Except.error "rs" }

/-- Environment whose raftstore validation fails. -/
def envRaftstoreFail : Env :=
  { envOk with raftstoreValidate := fun _ => Except.error "rs" }

/-- A default tree whose consensus-log path is preset to collide with the
derived main engine subdirectory. -/
def cCollide : TiKvConfig :=
  { TiKvConfig.default 0 with
      storage.data_dir := "/data",
      raft_store.raftdb_path := "/data/db" }

/-- `cCollide` after the backup-dir derivation and path canonicalization
steps. -/
def cCollide2 : TiKvConfig :=
  { cCollide with rocksdb.backup_dir := "/data/backup" }

/-- A default tree with a non-default data dir and an unset consensus-log
path. -/
def cPaths : TiKvConfig :=
  { TiKvConfig.default 0 with storage.data_dir := "/data" }

/-- `cPaths` after the backup-dir derivation step. -/
def cPathsB : TiKvConfig :=
  { cPaths with rocksdb.backup_dir := "/data/backup" }

/-- `cPaths` after both derivation steps. -/
def cPaths2 : TiKvConfig :=
  { cPaths with
      rocksdb.backup_dir := "/data/backup",
      raft_store.raftdb_path := "/data/raft" }

/-- A default tree whose data dir equals the engine-wide default, so that
no backup dir is derived. -/
def cDefaultDir : TiKvConfig :=
  { TiKvConfig.default 0 with storage.data_dir := "/tmp/tikv/store" }

/-- `cDefaultDir` after the consensus-log path derivation. -/
def cDefaultDir2 : TiKvConfig :=
  { cDefaultDir with raft_store.raftdb_path := "/tmp/tikv/store/raft" }

/-- A main-engine config whose rate limit is 2^63 bytes/sec (overflows the
i64 cast). -/
def cRateHuge : DbConfig :=
  { DbConfig.default 0 with rate_bytes_per_sec := ⟨2 ^ 63⟩ }

/-- The option object built from `cRateHuge`. -/
def dbOptsHuge : DBOptions := (DbConfig.build_opt envOk cRateHuge).getD DBOptions.new

/-- A main-engine config whose rate limit is 1KB/sec. -/
def cRate1 : DbConfig :=
  { DbConfig.default 0 with rate_bytes_per_sec := ReadableSize.kb 1 }

/-- The option object built from `cRate1`. -/
def dbOptsRate1 : DBOptions := (DbConfig.build_opt envOk cRate1).getD DBOptions.new

/-! # Theorems -/

/-- The source's two-sided if-clamp equals a min/max clamp. -/
theorem clamp_ite_eq_min_max (s lo hi : Nat) (h : lo ≤ hi) :
    (if s < lo then lo else if s > hi then hi else s) = Nat.min hi (Nat.max lo s) := by
  simp only [Nat.min, Nat.max, minOfLe, maxOfLe]
  split_ifs <;> omega

/-- A percent-ratio of a quantity never exceeds the quantity. -/
theorem ratio_le_total (a r : Nat) (h : r ≤ 100) : a * r / 100 ≤ a := by
  calc a * r / 100 ≤ a * 100 / 100 := Nat.div_le_div_right (Nat.mul_le_mul_left a h)
  _ = a := by omega

/-- Evaluation of the advisor at the consensus-log default CF. -/
theorem memory_raft_default_eval (t : Nat) :
    memory_mb_for_cf t true CF_DEFAULT =
      some ((if t * KB * 2 / 100 < RAFT_MIN_MEM then RAFT_MIN_MEM
             else if t * KB * 2 / 100 > RAFT_MAX_MEM then RAFT_MAX_MEM
             else t * KB * 2 / 100) / MB) := rfl

/-- Evaluation of the advisor at the main-engine default CF. -/
theorem memory_kv_default_eval (t : Nat) :
    memory_mb_for_cf t false CF_DEFAULT =
      some ((if t * KB * 25 / 100 < 0 then 0
             else if t * KB * 25 / 100 > USIZE_MAX then USIZE_MAX
             else t * KB * 25 / 100) / MB) := rfl

/-- Evaluation of the advisor at the lock CF. -/
theorem memory_lock_eval (t : Nat) :
    memory_mb_for_cf t false CF_LOCK =
      some ((if t * KB * 2 / 100 < LOCKCF_MIN_MEM then LOCKCF_MIN_MEM
             else if t * KB * 2 / 100 > LOCKCF_MAX_MEM then LOCKCF_MAX_MEM
             else t * KB * 2 / 100) / MB) := rfl

/-- Evaluation of the advisor at the write CF. -/
theorem memory_write_eval (t : Nat) :
    memory_mb_for_cf t false CF_WRITE =
      some ((if t * KB * 15 / 100 < 0 then 0
             else if t * KB * 15 / 100 > USIZE_MAX then USIZE_MAX
             else t * KB * 15 / 100) / MB) := rfl

/-- C1: for every host-memory total (`t` KB, within the usize range),
`memory_mb_for_cf` returns the fixed percent ratio of total host memory in
MB, clamped to the pair's bounds: consensus-log default CF gets 2% clamped
to [256MB, 2GB] (exactly 256MB below the floor, exactly 2GB above the
ceiling), main default CF gets 25% with floor 0 and no upper clamp, lock
CF gets 2% clamped to [256MB, 1GB], write CF gets 15% unclamped. -/
theorem memory_mb_for_cf_ratio_clamped (t : Nat) (h : t * KB ≤ USIZE_MAX) :
    memory_mb_for_cf t true CF_DEFAULT
        = some (Nat.min RAFT_MAX_MEM (Nat.max RAFT_MIN_MEM (t * KB * 2 / 100)) / MB)
    ∧ (t * KB * 2 / 100 < RAFT_MIN_MEM →
        memory_mb_for_cf t true CF_DEFAULT = some 256)
    ∧ (RAFT_MAX_MEM < t * KB * 2 / 100 →
        memory_mb_for_cf t true CF_DEFAULT = some 2048)
    ∧ memory_mb_for_cf t false CF_DEFAULT = some (t * KB * 25 / 100 / MB)
    ∧ memory_mb_for_cf t false CF_LOCK
        = some (Nat.min LOCKCF_MAX_MEM (Nat.max LOCKCF_MIN_MEM (t * KB * 2 / 100)) / MB)
    ∧ memory_mb_for_cf t false CF_WRITE = some (t * KB * 15 / 100 / MB) := by
  have hminmax : RAFT_MIN_MEM ≤ RAFT_MAX_MEM := by decide
  have hlock : LOCKCF_MIN_MEM ≤ LOCKCF_MAX_MEM := by decide
  refine ⟨?_, ?_, ?_, ?_, ?_, ?_⟩
  · rw [memory_raft_default_eval, clamp_ite_eq_min_max _ _ _ hminmax]
  · intro hlt
    rw [memory_raft_default_eval, if_pos hlt]
    decide
  · intro hgt
    rw [memory_raft_default_eval, if_neg (by omega), if_pos hgt]
    decide
  · rw [memory_kv_default_eval]
    have h1 : ¬ t * KB * 25 / 100 < 0 := Nat.not_lt_zero _
    have h2 : ¬ t * KB * 25 / 100 > USIZE_MAX :=
      Nat.not_lt.mpr (le_trans (ratio_le_total _ _ (by norm_num)) h)
    rw [if_neg h1, if_neg h2]
  · rw [memory_lock_eval, clamp_ite_eq_min_max _ _ _ hlock]
  · rw [memory_write_eval]
    have h1 : ¬ t * KB * 15 / 100 < 0 := Nat.not_lt_zero _
    have h2 : ¬ t * KB * 15 / 100 > USIZE_MAX :=
      Nat.not_lt.mpr (le_trans (ratio_le_total _ _ (by norm_num)) h)
    rw [if_neg h1, if_neg h2]

/-- Witness for C1 at a 16GiB host (the spec's scenario: the main default
CF gets 25% of 16GiB, i.e. 4096MB). -/
theorem memory_mb_for_cf_ratio_clamped_witness :
    16777216 * KB ≤ USIZE_MAX
    ∧ memory_mb_for_cf 16777216 false CF_DEFAULT
        = some (16777216 * KB * 25 / 100 / MB)
    ∧ 16777216 * KB * 25 / 100 / MB = 4096 :=
  ⟨by decide, (memory_mb_for_cf_ratio_clamped 16777216 (by decide)).2.2.2.1, by decide⟩

/-- C6: the block-based options produced by the common CF builder carry a
bloom-filter configuration if and only if `use_bloom_filter` is set; when
set, bits-per-key, the block-based-vs-full choice and the
whole-key-filtering flag equal the configured values exactly, and when
unset neither bloom field is set. -/
theorem build_cf_opt_bloom_filter_exact (opt : CfConfig) :
    ∃ b, (build_cf_opt opt).block_based_table_factory = some b
      ∧ b.bloom_filter =
          (if opt.use_bloom_filter then
            some (opt.bloom_filter_bits_per_key, opt.block_based_bloom_filter)
          else none)
      ∧ b.whole_key_filtering =
          (if opt.use_bloom_filter then some opt.whole_key_filtering else none)
      ∧ b.bloom_filter.isSome = opt.use_bloom_filter := by
  refine ⟨_, rfl, ?_, ?_, ?_⟩ <;>
    cases h : opt.use_bloom_filter <;>
      simp [build_cf_opt, BlockBasedOptions.new, BlockBasedOptions.set_block_size,
        BlockBasedOptions.set_lru_cache,
        BlockBasedOptions.set_cache_index_and_filter_blocks,
        BlockBasedOptions.set_bloom_filter, BlockBasedOptions.set_whole_key_filtering,
        h]

/-- C10: every variant-specific CF builder is total: it produces an option
object for every input configuration; in particular the (spec-modelled)
prefix-extractor registrations cannot make it fail. -/
theorem cf_build_opt_total (c : CfConfig) :
    (WriteCfConfig.build_opt c).isSome = true
    ∧ (LockCfConfig.build_opt c).isSome = true
    ∧ (RaftCfConfig.build_opt c).isSome = true
    ∧ (RaftDefaultCfConfig.build_opt c).isSome = true :=
  ⟨rfl, rfl, rfl, rfl⟩

/-- Characterization of the rate-limiter field of the main-engine option
object: present exactly when the configured rate is positive, carrying the
rate cast to i64. -/
theorem build_opt_ratelimiter (env : Env) (c : DbConfig) :
    (DbConfig.build_opt env c).map (fun o => o.ratelimiter) =
      (if c.info_log_dir ≠ "" ∧ env.create_info_log_ok c.info_log_dir = false then none
      else some
        (if 0 < c.rate_bytes_per_sec.bytes then
          some (i64_of_u64 c.rate_bytes_per_sec.bytes)
        else none)) := by
  by_cases h1 : c.info_log_dir = "" <;>
    by_cases h2 : env.create_info_log_ok c.info_log_dir <;>
      by_cases h3 : 0 < c.rate_bytes_per_sec.bytes <;>
        by_cases h4 : c.enable_statistics <;>
          by_cases h5 : c.wal_dir = "" <;>
            simp [DbConfig.build_opt, DBOptions.new, h1, h2, h3, h4, h5]

/-- C5 counterexample: the claim "the limiter's rate equals
rate_bytes_per_sec in bytes" fails at rate 2^63, where the source's
`as i64` cast wraps to a negative value. -/
theorem rate_limiter_exact_rate_cex :
    ¬ (∀ (env : Env) (c : DbConfig) (opts : DBOptions),
        DbConfig.build_opt env c = some opts →
        0 < c.rate_bytes_per_sec.bytes →
        opts.ratelimiter = some ((c.rate_bytes_per_sec.bytes : Nat) : Int)) := by
  intro hcl
  have h1 : DbConfig.build_opt envOk cRateHuge = some dbOptsHuge := rfl
  have h2 := hcl envOk cRateHuge dbOptsHuge h1 (by decide)
  have h3 : dbOptsHuge.ratelimiter = some (-(2 ^ 63) : Int) := by decide
  rw [h3] at h2
  have h4 : cRateHuge.rate_bytes_per_sec.bytes = 2 ^ 63 := rfl
  rw [h4] at h2
  simp at h2

/-- C5 (amended): the option object built from a `DbConfig` carries a rate
limiter exactly when `rate_bytes_per_sec` is positive (0 attaches none);
when attached the limiter's rate is the configured byte rate cast to i64,
which equals the byte rate itself whenever the rate is below 2^63. -/
theorem rate_limiter_iff_positive (env : Env) (c : DbConfig) (opts : DBOptions)
    (h : DbConfig.build_opt env c = some opts) :
    (opts.ratelimiter.isSome = true ↔ 0 < c.rate_bytes_per_sec.bytes)
    ∧ (0 < c.rate_bytes_per_sec.bytes →
        opts.ratelimiter = some (i64_of_u64 c.rate_bytes_per_sec.bytes))
    ∧ (c.rate_bytes_per_sec.bytes = 0 → opts.ratelimiter = none)
    ∧ (0 < c.rate_bytes_per_sec.bytes → c.rate_bytes_per_sec.bytes < 2 ^ 63 →
        opts.ratelimiter = some ((c.rate_bytes_per_sec.bytes : Nat) : Int)) := by
  have hc := build_opt_ratelimiter env c
  rw [h] at hc
  split at hc
  · exact absurd hc (by simp)
  · have hr : opts.ratelimiter =
        (if 0 < c.rate_bytes_per_sec.bytes then
          some (i64_of_u64 c.rate_bytes_per_sec.bytes)
        else none) := by
      simpa using hc
    by_cases hpos : 0 < c.rate_bytes_per_sec.bytes
    · rw [if_pos hpos] at hr
      refine ⟨by simp [hr, hpos], fun _ => hr, fun h0 => by omega, fun _ hlt => ?_⟩
      rw [hr, i64_of_u64, if_pos hlt]
    · rw [if_neg hpos] at hr
      exact ⟨by simp [hr]; omega, fun hp => absurd hp hpos, fun _ => hr,
        fun hp => absurd hp hpos⟩

/-- Witness for C5 at a 1KB/sec rate. -/
theorem rate_limiter_iff_positive_witness :
    DbConfig.build_opt envOk cRate1 = some dbOptsRate1
    ∧ (dbOptsRate1.ratelimiter.isSome = true ↔ 0 < cRate1.rate_bytes_per_sec.bytes)
    ∧ (0 < cRate1.rate_bytes_per_sec.bytes → cRate1.rate_bytes_per_sec.bytes < 2 ^ 63 →
        dbOptsRate1.ratelimiter = some ((cRate1.rate_bytes_per_sec.bytes : Nat) : Int)) :=
  ⟨rfl, (rate_limiter_iff_positive envOk cRate1 dbOptsRate1 rfl).1,
    (rate_limiter_iff_positive envOk cRate1 dbOptsRate1 rfl).2.2.2⟩

/-- C4: the backup-dir derivation step of the validation pass sets
`rocksdb.backup_dir` to `<data-dir>/backup` exactly when it was empty and
the data dir differs from the engine-wide default; in every other case it
leaves it unchanged, and it never touches any other part of the tree. -/
theorem backup_dir_derivation_exact (env : Env) (c : TiKvConfig) :
    ((TiKvConfig.deriveBackupDir env c).rocksdb.backup_dir =
      (if c.rocksdb.backup_dir = "" ∧ c.storage.data_dir ≠ env.default_data_dir then
        pathJoin c.storage.data_dir "backup"
      else c.rocksdb.backup_dir))
    ∧ { (TiKvConfig.deriveBackupDir env c).rocksdb with
          backup_dir := c.rocksdb.backup_dir } = c.rocksdb
    ∧ (TiKvConfig.deriveBackupDir env c).log_level = c.log_level
    ∧ (TiKvConfig.deriveBackupDir env c).log_file = c.log_file
    ∧ (TiKvConfig.deriveBackupDir env c).server = c.server
    ∧ (TiKvConfig.deriveBackupDir env c).storage = c.storage
    ∧ (TiKvConfig.deriveBackupDir env c).pd = c.pd
    ∧ (TiKvConfig.deriveBackupDir env c).metric = c.metric
    ∧ (TiKvConfig.deriveBackupDir env c).raft_store = c.raft_store
    ∧ (TiKvConfig.deriveBackupDir env c).raftdb = c.raftdb := by
  unfold TiKvConfig.deriveBackupDir
  split_ifs with h
  · exact ⟨rfl, rfl, rfl, rfl, rfl, rfl, rfl, rfl, rfl, rfl⟩
  · exact ⟨rfl, rfl, rfl, rfl, rfl, rfl, rfl, rfl, rfl, rfl⟩

/-- C2: whenever the pipeline reaches the collision check with the derived
consensus-log path equal to the derived main engine subdirectory path,
`validate` returns the collision error. -/
theorem validate_rejects_path_collision (env : Env) (c c2 : TiKvConfig)
    (h1 : env.storageValidate c.storage = Except.ok ())
    (h2 : TiKvConfig.deriveRaftdbPath env (TiKvConfig.deriveBackupDir env c)
            = Except.ok c2)
    (h3 : env.canonicalize_sub_path c2.storage.data_dir DEFAULT_ROCKSDB_SUB_DIR
            = Except.ok c2.raft_store.raftdb_path) :
    (TiKvConfig.validate env c).2 =
      Except.error "raft_store.raftdb_path can not same with storage.data_dir/db" := by
  unfold TiKvConfig.validate
  simp only [h1, h2, h3]
  simp

/-- Witness for C2: a tree whose preset consensus-log path collides with
`<data-dir>/db`. -/
theorem validate_rejects_path_collision_witness :
    (TiKvConfig.validate envOk cCollide).2 =
      Except.error "raft_store.raftdb_path can not same with storage.data_dir/db" :=
  validate_rejects_path_collision envOk cCollide cCollide2 rfl (by decide) (by decide)

/-- When every derivation succeeds, the paths differ and the two engines
are consistently present or absent, `validate` proceeds to the delegated
sub-validations on the derived tree. -/
theorem validate_tail_reached (env : Env) (c c2 : TiKvConfig) (kv : String)
    (h1 : env.storageValidate c.storage = Except.ok ())
    (h2 : TiKvConfig.deriveRaftdbPath env (TiKvConfig.deriveBackupDir env c)
            = Except.ok c2)
    (h3 : env.canonicalize_sub_path c2.storage.data_dir DEFAULT_ROCKSDB_SUB_DIR
            = Except.ok kv)
    (h4 : kv ≠ c2.raft_store.raftdb_path)
    (h5 : env.db_exist kv = env.db_exist c2.raft_store.raftdb_path) :
    TiKvConfig.validate env c = TiKvConfig.validateTail env c2 := by
  unfold TiKvConfig.validate
  simp only [h1, h2, h3]
  have h6 : (env.db_exist kv && !env.db_exist c2.raft_store.raftdb_path) = false := by
    rw [h5]
    cases env.db_exist c2.raft_store.raftdb_path <;> rfl
  have h7 : (!env.db_exist kv && env.db_exist c2.raft_store.raftdb_path) = false := by
    rw [h5]
    cases env.db_exist c2.raft_store.raftdb_path <;> rfl
  simp [h4, h6, h7]

/-- C3: once the pipeline reaches the existence check, `validate` fails
exactly when one engine's data exists on disk and the other's does not;
when both exist or both are absent the check passes and validation
continues with the delegated sub-validations. -/
theorem validate_engine_existence_consistency (env : Env) (c c2 : TiKvConfig)
    (kv : String)
    (h1 : env.storageValidate c.storage = Except.ok ())
    (h2 : TiKvConfig.deriveRaftdbPath env (TiKvConfig.deriveBackupDir env c)
            = Except.ok c2)
    (h3 : env.canonicalize_sub_path c2.storage.data_dir DEFAULT_ROCKSDB_SUB_DIR
            = Except.ok kv)
    (h4 : kv ≠ c2.raft_store.raftdb_path) :
    (env.db_exist kv ≠ env.db_exist c2.raft_store.raftdb_path →
      (TiKvConfig.validate env c).2.isOk = false)
    ∧ (env.db_exist kv = env.db_exist c2.raft_store.raftdb_path →
      TiKvConfig.validate env c = TiKvConfig.validateTail env c2) := by
  constructor
  · intro hne
    unfold TiKvConfig.validate
    simp only [h1, h2, h3]
    rw [if_neg h4]
    cases hkv : env.db_exist kv <;>
      cases hrf : env.db_exist c2.raft_store.raftdb_path <;>
        simp_all [Except.isOk, Except.toBool]
  · exact validate_tail_reached env c c2 kv h1 h2 h3 h4

/-- Witness for C3: one deployment where only the main engine data exists
(rejected), one where neither exists (the check passes and validation
proceeds to the delegated sub-validations). -/
theorem validate_engine_existence_consistency_witness :
    (TiKvConfig.validate envExistKv cPaths).2.isOk = false
    ∧ TiKvConfig.validate envOk cPaths = TiKvConfig.validateTail envOk cPaths2 :=
  ⟨(validate_engine_existence_consistency envExistKv cPaths cPaths2 "/data/db"
      rfl (by decide) rfl (by decide)).1 (by decide),
   (validate_engine_existence_consistency envOk cPaths cPaths2 "/data/db"
      rfl (by decide) rfl (by decide)).2 rfl⟩

/-- C8: the validation pass runs its steps in source order and returns the
first failing step's error immediately: a storage failure returns before
any derivation; a consensus-log canonicalization failure returns right
after the backup derivation; a main-path canonicalization failure, the
collision error and the existence errors return the tree as derived so
far; a main-engine validation failure, a server failure and a raftstore
failure each return their own error even when every later delegated
validation would also fail; the endpoint check runs last. -/
theorem validate_order_short_circuit (env : Env) (c : TiKvConfig) :
    (∀ e, env.storageValidate c.storage = Except.error e →
      TiKvConfig.validate env c = (c, Except.error e))
    ∧ (∀ e, env.storageValidate c.storage = Except.ok () →
        TiKvConfig.deriveRaftdbPath env (TiKvConfig.deriveBackupDir env c)
          = Except.error e →
        TiKvConfig.validate env c = (TiKvConfig.deriveBackupDir env c, Except.error e))
    ∧ (∀ e c2, env.storageValidate c.storage = Except.ok () →
        TiKvConfig.deriveRaftdbPath env (TiKvConfig.deriveBackupDir env c)
          = Except.ok c2 →
        env.canonicalize_sub_path c2.storage.data_dir DEFAULT_ROCKSDB_SUB_DIR
          = Except.error e →
        TiKvConfig.validate env c = (c2, Except.error e))
    ∧ (∀ c2 kv, env.storageValidate c.storage = Except.ok () →
        TiKvConfig.deriveRaftdbPath env (TiKvConfig.deriveBackupDir env c)
          = Except.ok c2 →
        env.canonicalize_sub_path c2.storage.data_dir DEFAULT_ROCKSDB_SUB_DIR
          = Except.ok kv →
        kv ≠ c2.raft_store.raftdb_path →
        env.db_exist kv = true → env.db_exist c2.raft_store.raftdb_path = false →
        TiKvConfig.validate env c =
          (c2, Except.error "default rocksdb exist, buf raftdb not exist"))
    ∧ (∀ c2 kv e, env.storageValidate c.storage = Except.ok () →
        TiKvConfig.deriveRaftdbPath env (TiKvConfig.deriveBackupDir env c)
          = Except.ok c2 →
        env.canonicalize_sub_path c2.storage.data_dir DEFAULT_ROCKSDB_SUB_DIR
          = Except.ok kv →
        kv ≠ c2.raft_store.raftdb_path →
        env.db_exist kv = env.db_exist c2.raft_store.raftdb_path →
        c2.rocksdb.backup_dir ≠ "" →
        env.canonicalize_path c2.rocksdb.backup_dir = Except.error e →
        TiKvConfig.validate env c = (c2, Except.error e))
    ∧ (∀ c2 kv e, env.storageValidate c.storage = Except.ok () →
        TiKvConfig.deriveRaftdbPath env (TiKvConfig.deriveBackupDir env c)
          = Except.ok c2 →
        env.canonicalize_sub_path c2.storage.data_dir DEFAULT_ROCKSDB_SUB_DIR
          = Except.ok kv →
        kv ≠ c2.raft_store.raftdb_path →
        env.db_exist kv = env.db_exist c2.raft_store.raftdb_path →
        DbConfig.validate env c2.rocksdb = (c2.rocksdb, Except.ok ()) →
        env.serverValidate c2.server = Except.error e →
        TiKvConfig.validate env c = (c2, Except.error e))
    ∧ (∀ c2 kv e, env.storageValidate c.storage = Except.ok () →
        TiKvConfig.deriveRaftdbPath env (TiKvConfig.deriveBackupDir env c)
          = Except.ok c2 →
        env.canonicalize_sub_path c2.storage.data_dir DEFAULT_ROCKSDB_SUB_DIR
          = Except.ok kv →
        kv ≠ c2.raft_store.raftdb_path →
        env.db_exist kv = env.db_exist c2.raft_store.raftdb_path →
        DbConfig.validate env c2.rocksdb = (c2.rocksdb, Except.ok ()) →
        env.serverValidate c2.server = Except.ok () →
        env.raftstoreValidate c2.raft_store = Except.error e →
        TiKvConfig.validate env c = (c2, Except.error e))
    ∧ (∀ c2 kv, env.storageValidate c.storage = Except.ok () →
        TiKvConfig.deriveRaftdbPath env (TiKvConfig.deriveBackupDir env c)
          = Except.ok c2 →
        env.canonicalize_sub_path c2.storage.data_dir DEFAULT_ROCKSDB_SUB_DIR
          = Except.ok kv →
        kv ≠ c2.raft_store.raftdb_path →
        env.db_exist kv = env.db_exist c2.raft_store.raftdb_path →
        DbConfig.validate env c2.rocksdb = (c2.rocksdb, Except.ok ()) →
        env.serverValidate c2.server = Except.ok () →
        env.raftstoreValidate c2.raft_store = Except.ok () →
        c2.pd.endpoints = [] →
        TiKvConfig.validate env c =
          (c2, Except.error "please specify pd.endpoints.")) := by
  refine ⟨?_, ?_, ?_, ?_, ?_, ?_, ?_, ?_⟩
  · intro e h1
    unfold TiKvConfig.validate
    simp only [h1]
  · intro e h1 h2
    unfold TiKvConfig.validate
    simp only [h1, h2]
  · intro e c2 h1 h2 h3
    unfold TiKvConfig.validate
    simp only [h1, h2, h3]
  · intro c2 kv h1 h2 h3 h4 hkv hrf
    unfold TiKvConfig.validate
    simp only [h1, h2, h3]
    rw [if_neg h4]
    simp [hkv, hrf]
  · intro c2 kv e h1 h2 h3 h4 h5 hbd hcp
    rw [validate_tail_reached env c c2 kv h1 h2 h3 h4 h5]
    unfold TiKvConfig.validateTail DbConfig.validate
    rw [if_pos hbd]
    simp only [hcp]
  · intro c2 kv e h1 h2 h3 h4 h5 hdb hsv
    rw [validate_tail_reached env c c2 kv h1 h2 h3 h4 h5]
    unfold TiKvConfig.validateTail
    simp only [hdb, hsv]
  · intro c2 kv e h1 h2 h3 h4 h5 hdb hsv hrs
    rw [validate_tail_reached env c c2 kv h1 h2 h3 h4 h5]
    unfold TiKvConfig.validateTail
    simp only [hdb, hsv, hrs]
  · intro c2 kv h1 h2 h3 h4 h5 hdb hsv hrs hpd
    rw [validate_tail_reached env c c2 kv h1 h2 h3 h4 h5]
    unfold TiKvConfig.validateTail PdConfig.validate
    simp only [hdb, hsv, hrs, hpd]
    simp

/-- Witness for C8: concrete runs failing at each stage, each returning
that stage's error (even when later delegated validators would fail too). -/
theorem validate_order_short_circuit_witness :
    TiKvConfig.validate envStorageFail (TiKvConfig.default 0)
      = (TiKvConfig.default 0, Except.error "se")
    ∧ TiKvConfig.validate envSubFail cPaths = (cPathsB, Except.error "re")
    ∧ TiKvConfig.validate envDbSubFail cPaths = (cPaths2, Except.error "de")
    ∧ TiKvConfig.validate envExistKv cPaths
        = (cPaths2, Except.error "default rocksdb exist, buf raftdb not exist")
    ∧ TiKvConfig.validate envPathFail cPaths = (cPaths2, Except.error "ce")
    ∧ TiKvConfig.validate envServerFail cDefaultDir = (cDefaultDir2, Except.error "sv")
    ∧ TiKvConfig.validate envRaftstoreFail cDefaultDir
        = (cDefaultDir2, Except.error "rs")
    ∧ TiKvConfig.validate envOk cDefaultDir
        = (cDefaultDir2, Except.error "please specify pd.endpoints.") :=
  ⟨(validate_order_short_circuit envStorageFail (TiKvConfig.default 0)).1 "se" rfl,
   ((validate_order_short_circuit envSubFail cPaths).2.1 "re" rfl
      (by decide)).trans (by decide),
   (validate_order_short_circuit envDbSubFail cPaths).2.2.1 "de" cPaths2 rfl
      (by decide) (by decide),
   (validate_order_short_circuit envExistKv cPaths).2.2.2.1 cPaths2 "/data/db" rfl
      (by decide) (by decide) (by decide) (by decide) (by decide),
   (validate_order_short_circuit envPathFail cPaths).2.2.2.2.1 cPaths2 "/data/db" "ce"
      rfl (by decide) (by decide) (by decide) rfl (by decide) (by decide),
   (validate_order_short_circuit envServerFail cDefaultDir).2.2.2.2.2.1 cDefaultDir2
      "/tmp/tikv/store/db" "sv" rfl (by decide) (by decide) (by decide) rfl
      (by decide) rfl,
   (validate_order_short_circuit envRaftstoreFail cDefaultDir).2.2.2.2.2.2.1
      cDefaultDir2 "/tmp/tikv/store/db" "rs" rfl (by decide) (by decide) (by decide)
      rfl (by decide) rfl rfl,
   (validate_order_short_circuit envOk cDefaultDir).2.2.2.2.2.2.2 cDefaultDir2
      "/tmp/tikv/store/db" rfl (by decide) (by decide) (by decide) rfl (by decide)
      rfl rfl (by decide)⟩


/-- The backup-dir derivation step changes only `rocksdb.backup_dir`. -/
theorem deriveBackupDir_frame (env : Env) (c : TiKvConfig) :
    TiKvConfig.deriveBackupDir env c =
      { c with rocksdb := { c.rocksdb with
          backup_dir := (TiKvConfig.deriveBackupDir env c).rocksdb.backup_dir } } := by
  unfold TiKvConfig.deriveBackupDir
  split <;> rfl

theorem deriveBackupDir_raft (env : Env) (c : TiKvConfig) :
    (TiKvConfig.deriveBackupDir env c).raft_store = c.raft_store := by
  unfold TiKvConfig.deriveBackupDir
  split <;> rfl

theorem deriveRaftdbPath_state (env : Env) (c c2 : TiKvConfig)
    (h : TiKvConfig.deriveRaftdbPath env c = Except.ok c2) :
    c2 = { c with raft_store := { c.raft_store with
            raftdb_path := c2.raft_store.raftdb_path } } := by
  unfold TiKvConfig.deriveRaftdbPath at h
  split at h
  · exact absurd h (by simp)
  · have h2 := Except.ok.inj h
    rw [← h2]

theorem dbValidate_state (env : Env) (db : DbConfig) :
    (DbConfig.validate env db).1 =
      { db with backup_dir := (DbConfig.validate env db).1.backup_dir } := by
  unfold DbConfig.validate
  split
  · split <;> rfl
  · rfl

theorem c2_frame (env : Env) (c c2 : TiKvConfig)
    (hd : TiKvConfig.deriveRaftdbPath env (TiKvConfig.deriveBackupDir env c)
            = Except.ok c2) :
    c2 = { c with
        raft_store := { c.raft_store with
          raftdb_path := c2.raft_store.raftdb_path },
        rocksdb := { c.rocksdb with
          backup_dir := c2.rocksdb.backup_dir } } := by
  have h1 := deriveRaftdbPath_state env (TiKvConfig.deriveBackupDir env c) c2 hd
  rw [h1]
  rw [deriveBackupDir_frame env c]

theorem validateTail_frame (env : Env) (x : TiKvConfig) :
    (TiKvConfig.validateTail env x).1 =
      { x with rocksdb := { x.rocksdb with
          backup_dir := (TiKvConfig.validateTail env x).1.rocksdb.backup_dir } } := by
  have hdbs := dbValidate_state env x.rocksdb
  unfold TiKvConfig.validateTail
  rcases hdb : DbConfig.validate env x.rocksdb with ⟨db2, r⟩
  rw [hdb] at hdbs
  simp only [] at hdbs
  cases r
  · simp only []
    conv_lhs => rw [hdbs]
  · simp only []
    repeat' split
    all_goals (conv_lhs => rw [hdbs])

set_option maxHeartbeats 1000000 in
/-- C9: the validation pass mutates only the derived path fields: the
resulting tree equals the input tree with (at most) `raft_store.raftdb_path`
and `rocksdb.backup_dir` replaced, both on success and on failure. -/
theorem validate_frame_only_derived_paths (env : Env) (c : TiKvConfig) :
    (TiKvConfig.validate env c).1 =
      { c with
          raft_store := { c.raft_store with
            raftdb_path := (TiKvConfig.validate env c).1.raft_store.raftdb_path },
          rocksdb := { c.rocksdb with
            backup_dir := (TiKvConfig.validate env c).1.rocksdb.backup_dir } } := by
  unfold TiKvConfig.validate
  cases hs : env.storageValidate c.storage with
  | error e => rfl
  | ok u =>
    cases u
    simp only []
    cases hd : TiKvConfig.deriveRaftdbPath env (TiKvConfig.deriveBackupDir env c) with
    | error e =>
      simp only []
      conv_lhs => rw [deriveBackupDir_frame env c]
      rw [deriveBackupDir_raft env c]
    | ok c2 =>
      have hc2 := c2_frame env c c2 hd
      simp only []
      cases hk : env.canonicalize_sub_path c2.storage.data_dir DEFAULT_ROCKSDB_SUB_DIR with
      | error e =>
        simp only []
        conv_lhs => rw [hc2]
      | ok kv =>
        simp only []
        split_ifs with h1 h2 h3
        · conv_lhs => rw [hc2]
        · conv_lhs => rw [hc2]
        · conv_lhs => rw [hc2]
        · have e1 : c2.log_level = c.log_level := by rw [hc2]
          have e2 : c2.log_file = c.log_file := by rw [hc2]
          have e3 : c2.server = c.server := by rw [hc2]
          have e4 : c2.storage = c.storage := by rw [hc2]
          have e5 : c2.pd = c.pd := by rw [hc2]
          have e6 : c2.metric = c.metric := by rw [hc2]
          have e7 : c2.raftdb = c.raftdb := by rw [hc2]
          have e8 : c2.raft_store =
              { c.raft_store with raftdb_path := c2.raft_store.raftdb_path } := by
            rw [hc2]
          have e9 : c2.rocksdb =
              { c.rocksdb with backup_dir := c2.rocksdb.backup_dir } := by
            rw [hc2]
          rw [validateTail_frame env c2]
          rw [e1, e2, e3, e4, e5, e6, e7, e8, e9]

/-- Wire round trips of the closed enumerations and of the per-struct
document encoders (serde layer, modelled from the spec). -/
theorem compressionOfStr_toStr (v : DBCompressionType) :
    compressionOfStr (compressionToStr v) = some v := by cases v <;> rfl

theorem compactionPriOfInt_toInt (p : CompactionPriority) :
    compactionPriOfInt (compactionPriToInt p) = some p := by cases p <;> rfl

theorem recoveryModeOfInt_toInt (m : DBRecoveryMode) :
    recoveryModeOfInt (recoveryModeToInt m) = some m := by cases m <;> rfl

theorem logLevelOfStr_toStr (l : LogLevelFilter) :
    logLevelOfStr (logLevelToStr l) = some l := by cases l <;> rfl

theorem decodeLabels_encodeLabels (l : List (String × String)) :
    decodeLabels (encodeLabels l) = l := by
  induction l with
  | nil => rfl
  | cons p t ih => simp [encodeLabels, decodeLabels] at ih ⊢; exact ih

theorem cf_ofToml_toToml (d c : CfConfig) :
    CfConfig.ofToml d (CfConfig.toToml c) = c := by
  simp +decide [CfConfig.ofToml, CfConfig.toToml, getSize, getBool, getInt,
    getCompactionPri, getCompression, lookupKV, compression7ToStrs,
    compression7OfStrs, compressionOfStr_toStr, compactionPriOfInt_toInt]

theorem db_ofToml_toToml (d c : DbConfig) :
    DbConfig.ofToml d (DbConfig.toToml c) = c := by
  simp +decide [DbConfig.ofToml, DbConfig.toToml, getSize, getBool, getInt, getNat,
    getStr, getDur, getTable, getRecoveryMode, lookupKV, recoveryModeOfInt_toInt,
    cf_ofToml_toToml]

theorem raftdb_ofToml_toToml (d c : RaftDbConfig) :
    RaftDbConfig.ofToml d (RaftDbConfig.toToml c) = c := by
  simp +decide [RaftDbConfig.ofToml, RaftDbConfig.toToml, getSize, getBool, getInt,
    getNat, getStr, getDur, getTable, getRecoveryMode, lookupKV,
    recoveryModeOfInt_toInt, cf_ofToml_toToml]

theorem server_ofToml_toToml (d c : ServerConfig) (h : c.cluster_id = d.cluster_id) :
    ServerConfig.ofToml d (ServerConfig.toToml c) = c := by
  simp +decide [ServerConfig.ofToml, ServerConfig.toToml, getSize, getBool, getInt,
    getNat, getStr, getTable, getLabels, lookupKV, decodeLabels_encodeLabels]
  rw [← h]

theorem storage_ofToml_toToml (d c : StorageConfig) :
    StorageConfig.ofToml d (StorageConfig.toToml c) = c := by
  simp +decide [StorageConfig.ofToml, StorageConfig.toToml, getFlt, getNat, getStr,
    lookupKV]

theorem pd_ofToml_toToml (d c : PdConfig) :
    PdConfig.ofToml d (PdConfig.toToml c) = c := by
  simp +decide [PdConfig.ofToml, PdConfig.toToml, getStrArr, lookupKV]

theorem metric_ofToml_toToml (d c : MetricConfig) :
    MetricConfig.ofToml d (MetricConfig.toToml c) = c := by
  simp +decide [MetricConfig.ofToml, MetricConfig.toToml, getDur, getStr, lookupKV]

theorem raftstore_ofToml_toToml (d c : RaftstoreConfig) :
    RaftstoreConfig.ofToml d (RaftstoreConfig.toToml c) = c := by
  simp +decide [RaftstoreConfig.ofToml, RaftstoreConfig.toToml, getSize, getBool,
    getNat, getStr, getDur, lookupKV]

theorem tikv_ofToml_toToml (d c : TiKvConfig) (h : c.server.cluster_id = d.server.cluster_id) :
    TiKvConfig.ofToml d (TiKvConfig.toToml c) = c := by
  simp +decide [TiKvConfig.ofToml, TiKvConfig.toToml, getStr, getTable, getLogLevel,
    lookupKV, logLevelOfStr_toStr, db_ofToml_toToml, raftdb_ofToml_toToml,
    storage_ofToml_toToml, pd_ofToml_toToml, metric_ofToml_toToml,
    raftstore_ofToml_toToml, server_ofToml_toToml d.server c.server h]

/-- C7: serializing the default configuration tree to its document form
and parsing the document back onto the default tree reproduces the tree,
field for field, for every injected host-memory total. -/
theorem toml_roundtrip_default_tree (m : Nat) :
    TiKvConfig.ofToml (TiKvConfig.default m) (TiKvConfig.toToml (TiKvConfig.default m))
      = TiKvConfig.default m :=
  tikv_ofToml_toToml (TiKvConfig.default m) (TiKvConfig.default m) rfl
